import Mathlib

/-!
# P760 power HAL (`libpower/power.c`)

A shallow embedding of `libpower/power.c` and the properties of its three entry
points `p760_power_init`, `p760_power_set_interactive` and `p760_power_hint`.

## Modelling conventions

* Bytes are natural numbers, a `char` array is a `List Nat`.  A string literal
  `"abc"` is the array of its bytes followed by one NUL.
* The kernel is an oracle: the world carries a script of responses and every
  system call that has a result (`open`, `read`, `write`) consumes the next one.
  A script that has run out answers with a failure.
* Every system call and every `ALOGE` record is appended to the trace of the
  world.  Entering `sysfs_write` is recorded as well (a function-entry event,
  the "attempted attribute write" of the specification).
* `strlen` of an array without a NUL runs past the array; the bytes that such a
  `write` sends are not determined by the program, which the model records as
  the payload `none`.
* The mutex of `boostpulse_open` is not modelled: calls are executed one after
  the other.
-/

namespace P760

/-! ## Bytes, arrays and C strings -/

/-- The bytes of a text, without terminator. -/
def bytes (s : String) : List Nat := s.toList.map Char.toNat

/-- The array denoted by a C string literal: its bytes and the terminating NUL. -/
def lit (s : String) : List Nat := bytes s ++ [0]

/-- The array of `static char a[n] = "..."`: the bytes, then NUL up to `n` bytes. -/
def char_array (n : Nat) (s : String) : List Nat :=
  (bytes s ++ List.replicate n 0).take n

/-- The result of `strlen` on an array: the index of the first NUL, `none` when the
array holds no NUL (the scan leaves the array). -/
def strlen : List Nat → Option Nat
  | [] => none
  | b :: rest => if b = 0 then some 0 else (strlen rest).map (· + 1)

/-- The bytes `s[0 .. strlen s)` that `write(fd, s, strlen(s))` sends, `none` when
the array holds no NUL. -/
def c_str (s : List Nat) : Option (List Nat) :=
  (strlen s).map (fun n => s.take n)

/-- The effect of `memcpy(dst, src, n)` on `dst`. -/
def memcpy (dst src : List Nat) (n : Nat) : List Nat :=
  src.take n ++ dst.drop n

/-- Decimal digits of a natural number, most significant first, as ASCII bytes.
The first argument bounds the number of digits. -/
def decimal_digits : Nat → Nat → List Nat
  | 0, _ => []
  | fuel + 1, n =>
    if n < 10 then [48 + n] else decimal_digits fuel (n / 10) ++ [48 + n % 10]

/-- The text produced by the conversion `%d` of `printf`. -/
def format_d (v : Int) : List Nat :=
  if v < 0 then 45 :: decimal_digits (v.natAbs + 1) v.natAbs
  else decimal_digits (v.natAbs + 1) v.natAbs

/-- The effect of `snprintf(buf, size, "%d", v)` on `buf`: at most `size - 1` bytes
of the text, then a NUL; the rest of the array keeps its content. -/
def snprintf_d (buf : List Nat) (size : Nat) (v : Int) : List Nat :=
  let text := (format_d v).take (size - 1)
  text ++ [0] ++ buf.drop (text.length + 1)

/-- The null pointer. -/
def NULL : Nat := 0

/-- The cast `(int) data` of a 32-bit pointer word to a signed 32-bit integer. -/
def int_of_ptr (data : Nat) : Int :=
  if data % 2 ^ 32 < 2 ^ 31 then (data % 2 ^ 32 : Nat) else (data % 2 ^ 32 : Nat) - 2 ^ 32

/-- The cast `(void *) n` by which a caller passes the integer `n` as payload. -/
def ptr_of_int (n : Int) : Nat := (n % 2 ^ 32).toNat

/-! ## Constants of the source -/

def SCALINGMAXFREQ_PATH : String := "/sys/devices/system/cpu/cpu0/cpufreq/scaling_max_freq"
def BOOSTPULSE_PATH : String := "/sys/devices/system/cpu/cpufreq/interactive/boostpulse"
/-- The path literal that `p760_power_init` and `p760_power_set_interactive` pass for
the timer rate of the interactive governor. -/
def TIMER_RATE_PATH : String := "/sys/devices/system/cpu/cpufreq/interactive/timer_rate"

def TIMER_RATE_SCREEN_ON : String := "20000"
def TIMER_RATE_SCREEN_OFF : String := "500000"

def MAX_BUF_SZ : Nat := 10

/-- Modelled from the spec: `errno.h` is not part of the repository; `EINTR` is the
error of the "interrupted" class, the only one on which `sysfs_read` retries (4 on
Linux).  No property below depends on the number. -/
def EINTR : Nat := 4

/-- The error with which the kernel answers once its script has run out (`EIO`, 5 on
Linux); it is not `EINTR`. -/
def EIO : Nat := 5

/-- The access modes the source passes to `open`. -/
inductive OpenFlag
  | O_RDONLY
  | O_WRONLY
  deriving DecidableEq, Repr

/-- Modelled from the spec: `hardware/power.h` is not part of the repository; the
type `power_hint_t` has the three codes that the `switch` of `p760_power_hint` names,
and `other c` stands for every code that is none of them (the `default` case). -/
inductive power_hint_t
  | POWER_HINT_VSYNC
  | POWER_HINT_INTERACTION
  | POWER_HINT_CPU_BOOST
  | other (code : Nat)
  deriving DecidableEq, Repr

/-! ## The world: kernel oracle, `errno`, trace -/

/-- One answer of the kernel.  `ok val data`: the call succeeds; `val` is the
descriptor returned by `open` or the count returned by `write`, `data` the bytes
a `read` finds in the attribute.  `fail e`: the call returns `-1`, `errno = e`. -/
inductive Resp
  | ok (val : Nat) (data : List Nat)
  | fail (errno : Nat)
  deriving DecidableEq, Repr

/-- What the program does that is visible from outside. -/
inductive Event
  | call_sysfs_write (path : String) (value : Option (List Nat))
  | sys_open (path : String) (flags : OpenFlag) (ret : Int)
  | sys_read (fd : Int) (size : Nat) (ret : Int)
  | sys_write (fd : Int) (payload : Option (List Nat)) (ret : Int)
  | sys_close (fd : Int)
  | aloge (fmt : String) (path : String) (errno : Nat)
  deriving DecidableEq, Repr

structure World where
  script : List Resp
  errno : Nat
  trace : List Event
  deriving DecidableEq, Repr

/-- The next answer of the kernel and the rest of the script. -/
def next_resp (w : World) : Resp × World :=
  match w.script with
  | [] => (Resp.fail EIO, w)
  | r :: rest => (r, { w with script := rest })

def emit (e : Event) (w : World) : World :=
  { w with trace := w.trace ++ [e] }

/-- The system call `open(path, flags)`. -/
def sys_open (path : String) (flags : OpenFlag) (w : World) : Int × World :=
  match next_resp w with
  | (Resp.ok fd _, w1) => ((fd : Int), emit (Event.sys_open path flags fd) w1)
  | (Resp.fail e, w1) => (-1, emit (Event.sys_open path flags (-1)) { w1 with errno := e })

/-- The system call `write(fd, s, strlen(s))`, `payload` being `c_str s`. -/
def sys_write (fd : Int) (payload : Option (List Nat)) (w : World) : Int × World :=
  match next_resp w with
  | (Resp.ok n _, w1) => ((n : Int), emit (Event.sys_write fd payload n) w1)
  | (Resp.fail e, w1) => (-1, emit (Event.sys_write fd payload (-1)) { w1 with errno := e })

/-- The system call `read(fd, buf, size)`: returns the count and the new content of
`buf`.  The kernel delivers at most `size` bytes. -/
def sys_read (fd : Int) (buf : List Nat) (size : Nat) (w : World) : Int × List Nat × World :=
  match next_resp w with
  | (Resp.ok _ data, w1) =>
    let got := data.take size
    ((got.length : Int), got ++ buf.drop got.length,
      emit (Event.sys_read fd size got.length) w1)
  | (Resp.fail e, w1) => (-1, buf, emit (Event.sys_read fd size (-1)) { w1 with errno := e })

/-- The system call `close(fd)`; its result is ignored by the source. -/
def sys_close (fd : Int) (w : World) : World := emit (Event.sys_close fd) w

/-- The record `ALOGE(fmt, path, strerror_r(errno))`. -/
def ALOGE (fmt : String) (path : String) (w : World) : World :=
  emit (Event.aloge fmt path w.errno) w

/-! ## Module state -/

/-- The fields `boostpulse_fd` and `boostpulse_warned` of `struct p760_power_module`
and the two static arrays. -/
structure State where
  boostpulse_fd : Int
  boostpulse_warned : Int
  scaling_max_freq : List Nat
  screen_off_max_freq : List Nat
  deriving DecidableEq, Repr

/-- The state at load time: `HAL_MODULE_INFO_SYM` and the initialisers of the arrays. -/
def initial_state : State :=
  { boostpulse_fd := -1
    boostpulse_warned := 0
    scaling_max_freq := char_array MAX_BUF_SZ "1008000"
    screen_off_max_freq := char_array MAX_BUF_SZ "600000" }

/-! ## The functions of `power.c` -/

def sysfs_write (path : String) (s : List Nat) (w : World) : World :=
  let w := emit (Event.call_sysfs_write path (c_str s)) w
  let (fd, w) := sys_open path OpenFlag.O_WRONLY w
  if fd < 0 then
    ALOGE "Error opening %s: %s\n" path w
  else
    let (len, w) := sys_write fd (c_str s) w
    let w := if len < 0 then ALOGE "Error writing to %s: %s\n" path w else w
    sys_close fd w

/-- The loop `do len = read(fd, buf, size); while (len < 0 && errno == EINTR)`.
Every iteration consumes one answer of the script; the first list is the script
still to come and is the measure of the recursion (on an empty script the `read`
fails with `EIO` and the loop ends). -/
def read_loop (fd : Int) (size : Nat) : List Resp → List Nat → World → Int × List Nat × World
  | [], buf, w => sys_read fd buf size w
  | _ :: rest, buf, w =>
    let (len, buf1, w1) := sys_read fd buf size w
    if len < 0 ∧ w1.errno = EINTR then read_loop fd size rest buf1 w1
    else (len, buf1, w1)

def sysfs_read (path : String) (buf : List Nat) (size : Nat) (w : World) :
    Int × List Nat × World :=
  let (fd, w) := sys_open path OpenFlag.O_RDONLY w
  if fd < 0 then (-1, buf, w)
  else
    let (len, buf, w) := read_loop fd size w.script buf w
    let w := sys_close fd w
    (len, buf, w)

def p760_power_init (w : World) : World :=
  let w := sysfs_write "/sys/devices/system/cpu/cpufreq/interactive/timer_rate"
    (lit TIMER_RATE_SCREEN_ON) w
  let w := sysfs_write "/sys/devices/system/cpu/cpufreq/interactive/min_sample_time"
    (lit "60000") w
  let w := sysfs_write "/sys/devices/system/cpu/cpufreq/interactive/hispeed_freq"
    (lit "600000") w
  let w := sysfs_write "/sys/devices/system/cpu/cpufreq/interactive/target_loads"
    (lit "70 800000:80 1008000:90") w
  let w := sysfs_write "/sys/devices/system/cpu/cpufreq/interactive/go_hispeed_load"
    (lit "90") w
  sysfs_write "/sys/devices/system/cpu/cpufreq/interactive/above_hispeed_delay"
    (lit "80000") w

def boostpulse_open (p760 : State) (w : World) : Int × State × World :=
  if p760.boostpulse_fd < 0 then
    let (fd, w) := sys_open BOOSTPULSE_PATH OpenFlag.O_WRONLY w
    let p760 := { p760 with boostpulse_fd := fd }
    if p760.boostpulse_fd < 0 then
      if p760.boostpulse_warned = 0 then
        let w := ALOGE "Error opening %s: %s\n" BOOSTPULSE_PATH w
        let p760 := { p760 with boostpulse_warned := 1 }
        (p760.boostpulse_fd, p760, w)
      else (p760.boostpulse_fd, p760, w)
    else (p760.boostpulse_fd, p760, w)
  else (p760.boostpulse_fd, p760, w)

/-- The entry point `setInteractive`.  `buf` is the content the uninitialised local
array `char buf[MAX_BUF_SZ]` happens to have when the call starts; `on_` is the
parameter `on`. -/
def p760_power_set_interactive (st : State) (on_ : Int) (buf : List Nat) (w : World) :
    State × World :=
  let (st, w) :=
    if on_ = 0 then
      let (len, buf, w) := sysfs_read SCALINGMAXFREQ_PATH buf MAX_BUF_SZ w
      if len ≠ -1 then
        ({ st with scaling_max_freq := memcpy st.scaling_max_freq buf MAX_BUF_SZ }, w)
      else (st, w)
    else (st, w)
  let w := sysfs_write SCALINGMAXFREQ_PATH
    (if on_ ≠ 0 then st.scaling_max_freq else st.screen_off_max_freq) w
  let w := sysfs_write "/sys/devices/system/cpu/cpufreq/interactive/timer_rate"
    (if on_ ≠ 0 then lit TIMER_RATE_SCREEN_ON else lit TIMER_RATE_SCREEN_OFF) w
  (st, w)

/-- The entry point `powerHint`.  `data` is the payload pointer as a 32-bit word,
`buf` the content the uninitialised local array `char buf[80]` happens to have. -/
def p760_power_hint (p760 : State) (hint : power_hint_t) (data : Nat) (buf : List Nat)
    (w : World) : State × World :=
  match hint with
  | power_hint_t.POWER_HINT_INTERACTION | power_hint_t.POWER_HINT_CPU_BOOST =>
    let duration : Int := if data ≠ NULL then int_of_ptr data else 1
    let (fd, p760, w) := boostpulse_open p760 w
    if fd ≥ 0 then
      let buf := snprintf_d buf 80 duration
      let (len, w) := sys_write p760.boostpulse_fd (c_str buf) w
      let w := if len < 0 then ALOGE "Error writing to %s: %s\n" BOOSTPULSE_PATH w else w
      (p760, w)
    else (p760, w)
  | power_hint_t.POWER_HINT_VSYNC => (p760, w)
  | power_hint_t.other _ => (p760, w)

/-! ## Runs -/

/-- One call of the host framework, with the content its uninitialised local
array happens to have. -/
inductive Call
  | init
  | setInteractive (on_ : Int) (buf : List Nat)
  | powerHint (hint : power_hint_t) (data : Nat) (buf : List Nat)
  deriving DecidableEq, Repr

def step (sw : State × World) (c : Call) : State × World :=
  match c with
  | Call.init => (sw.1, p760_power_init sw.2)
  | Call.setInteractive on_ buf => p760_power_set_interactive sw.1 on_ buf sw.2
  | Call.powerHint hint data buf => p760_power_hint sw.1 hint data buf sw.2

/-- A sequence of whole calls, one after the other. -/
def run (sw : State × World) (calls : List Call) : State × World :=
  calls.foldl step sw

/-- The world at load time, with the kernel answers `script`. -/
def initial_world (script : List Resp) : World :=
  { script := script, errno := 0, trace := [] }

/-- The states a run from the load-time state can reach. -/
def Reachable (st : State) : Prop :=
  ∃ script calls, (run (initial_state, initial_world script) calls).1 = st

/-! ## Observations on a trace -/

/-- The attempted attribute writes: the calls of `sysfs_write`, with path and value. -/
def attempted_writes (tr : List Event) : List (String × Option (List Nat)) :=
  tr.filterMap fun e =>
    match e with
    | Event.call_sysfs_write path value => some (path, value)
    | _ => none

/-- The diagnostic records: format, path and `errno` of every `ALOGE`. -/
def diagnostics (tr : List Event) : List (String × String × Nat) :=
  tr.filterMap fun e =>
    match e with
    | Event.aloge fmt path errno => some (fmt, path, errno)
    | _ => none

/-- The calls of `open`: path, access mode and result. -/
def opened (tr : List Event) : List (String × OpenFlag × Int) :=
  tr.filterMap fun e =>
    match e with
    | Event.sys_open path flags ret => some (path, flags, ret)
    | _ => none

/-- The calls of `write`: descriptor, bytes sent and result. -/
def written (tr : List Event) : List (Int × Option (List Nat) × Int) :=
  tr.filterMap fun e =>
    match e with
    | Event.sys_write fd payload ret => some (fd, payload, ret)
    | _ => none

/-- The calls of `close`: the descriptor. -/
def closed (tr : List Event) : List Int :=
  tr.filterMap fun e =>
    match e with
    | Event.sys_close fd => some fd
    | _ => none

/-- The calls of `open` on the boost attribute. -/
def boost_opens (tr : List Event) : List (String × OpenFlag × Int) :=
  (opened tr).filter fun x => x.1 = BOOSTPULSE_PATH

/-- The calls of `open` on the boost attribute that returned a descriptor. -/
def successful_boost_opens (tr : List Event) : List (String × OpenFlag × Int) :=
  (boost_opens tr).filter fun x => 0 ≤ x.2.2

/-- The `i`-th answer the kernel is going to give. -/
def peek (w : World) (i : Nat) : Resp := w.script.getD i (Resp.fail EIO)

/-- The value of the local `duration` of `p760_power_hint` for the payload `data`. -/
def hint_duration (data : Nat) : Int := if data ≠ NULL then int_of_ptr data else 1

/-- The hints that pulse the boost attribute. -/
def is_boost_hint (hint : power_hint_t) : Prop :=
  hint = power_hint_t.POWER_HINT_INTERACTION ∨ hint = power_hint_t.POWER_HINT_CPU_BOOST

/-- The boost attribute can be opened, with handle `fd`: the module holds `fd`
already, or it holds no handle and the next `open` returns `fd`. -/
def boost_openable (st : State) (w : World) (fd : Int) : Prop :=
  (0 ≤ st.boostpulse_fd ∧ fd = st.boostpulse_fd) ∨
  (st.boostpulse_fd < 0 ∧ ∃ n d, peek w 0 = Resp.ok n d ∧ fd = (n : Int))

/-- The handle and the trace agree: either the module holds no handle and no `open` of
the boost attribute has succeeded, or it holds the descriptor returned by the only
`open` of the boost attribute that has succeeded. -/
def handle_invariant (st : State) (tr : List Event) : Prop :=
  (st.boostpulse_fd < 0 ∧ successful_boost_opens tr = []) ∨
  (0 ≤ st.boostpulse_fd ∧
    successful_boost_opens tr = [(BOOSTPULSE_PATH, OpenFlag.O_WRONLY, st.boostpulse_fd)])

/-- A call of `powerHint` with the hint INTERACTION or CPU_BOOST. -/
def is_boost_call (c : Call) : Prop :=
  ∃ hint data buf, is_boost_hint hint ∧ c = Call.powerHint hint data buf

@[simp] theorem emit_trace (e : Event) (w : World) : (emit e w).trace = w.trace ++ [e] := rfl
@[simp] theorem emit_script (e : Event) (w : World) : (emit e w).script = w.script := rfl
@[simp] theorem emit_errno (e : Event) (w : World) : (emit e w).errno = w.errno := rfl

@[simp] theorem natCast_not_neg (n : Nat) : ¬ ((n : Int) < 0) := by omega

theorem sysfs_write_open_fail (path : String) (s : List Nat) (w : World) (e : Nat)
    (h : peek w 0 = Resp.fail e) :
    sysfs_write path s w =
      { script := w.script.tail, errno := e,
        trace := w.trace ++ [Event.call_sysfs_write path (c_str s),
          Event.sys_open path OpenFlag.O_WRONLY (-1),
          Event.aloge "Error opening %s: %s\n" path e] } := by
  rcases w with ⟨script, errno, trace⟩
  rcases script with _ | ⟨r, rest⟩
  · simp [peek] at h
    simp [sysfs_write, sys_open, next_resp, ALOGE, emit, h]
  · simp [peek] at h
    subst h
    simp [sysfs_write, sys_open, next_resp, ALOGE, emit]

theorem sysfs_write_write_fail (path : String) (s : List Nat) (w : World) (fd e : Nat)
    (d : List Nat) (h0 : peek w 0 = Resp.ok fd d) (h1 : peek w 1 = Resp.fail e) :
    sysfs_write path s w =
      { script := w.script.tail.tail, errno := e,
        trace := w.trace ++ [Event.call_sysfs_write path (c_str s),
          Event.sys_open path OpenFlag.O_WRONLY fd,
          Event.sys_write fd (c_str s) (-1),
          Event.aloge "Error writing to %s: %s\n" path e,
          Event.sys_close fd] } := by
  rcases w with ⟨script, errno, trace⟩
  rcases script with _ | ⟨r, rest⟩
  · simp [peek] at h0
  · simp [peek] at h0
    subst h0
    rcases rest with _ | ⟨r2, rest2⟩
    · simp [peek] at h1
      simp [sysfs_write, sys_open, sys_write, sys_close, next_resp, ALOGE, emit, h1]
    · simp [peek] at h1
      subst h1
      simp [sysfs_write, sys_open, sys_write, sys_close, next_resp, ALOGE, emit]

theorem sysfs_write_write_ok (path : String) (s : List Nat) (w : World) (fd n : Nat)
    (d d2 : List Nat) (h0 : peek w 0 = Resp.ok fd d) (h1 : peek w 1 = Resp.ok n d2) :
    sysfs_write path s w =
      { script := w.script.tail.tail, errno := w.errno,
        trace := w.trace ++ [Event.call_sysfs_write path (c_str s),
          Event.sys_open path OpenFlag.O_WRONLY fd,
          Event.sys_write fd (c_str s) n,
          Event.sys_close fd] } := by
  rcases w with ⟨script, errno, trace⟩
  rcases script with _ | ⟨r, rest⟩
  · simp [peek] at h0
  · simp [peek] at h0
    subst h0
    rcases rest with _ | ⟨r2, rest2⟩
    · simp [peek] at h1
    · simp [peek] at h1
      subst h1
      simp [sysfs_write, sys_open, sys_write, sys_close, next_resp, ALOGE, emit]

theorem attempted_writes_append (a b : List Event) :
    attempted_writes (a ++ b) = attempted_writes a ++ attempted_writes b := by
  simp [attempted_writes, List.filterMap_append]

theorem diagnostics_append (a b : List Event) :
    diagnostics (a ++ b) = diagnostics a ++ diagnostics b := by
  simp [diagnostics, List.filterMap_append]

theorem opened_append (a b : List Event) : opened (a ++ b) = opened a ++ opened b := by
  simp [opened, List.filterMap_append]

theorem written_append (a b : List Event) : written (a ++ b) = written a ++ written b := by
  simp [written, List.filterMap_append]

/-- The three ways a call of `sysfs_write` can go, by the next two kernel answers. -/
theorem sysfs_write_trace (path : String) (s : List Nat) (w : World) :
    ∃ ret : Int, ∃ tail : List Event,
      (sysfs_write path s w).trace = w.trace ++
        (Event.call_sysfs_write path (c_str s) :: Event.sys_open path OpenFlag.O_WRONLY ret
          :: tail) ∧
      attempted_writes tail = [] ∧ opened tail = [] ∧
      (written tail = [] ∨ ∃ n, written tail = [((ret : Int), c_str s, n)]) := by
  rcases h0 : peek w 0 with ⟨fd, d⟩ | e
  · rcases h1 : peek w 1 with ⟨n, d2⟩ | e
    · rw [sysfs_write_write_ok path s w fd n d d2 h0 h1]
      exact ⟨fd, _, rfl, by simp [attempted_writes], by simp [opened],
        Or.inr ⟨n, by simp [written]⟩⟩
    · rw [sysfs_write_write_fail path s w fd e d h0 h1]
      exact ⟨fd, _, rfl, by simp [attempted_writes], by simp [opened],
        Or.inr ⟨-1, by simp [written]⟩⟩
  · rw [sysfs_write_open_fail path s w e h0]
    exact ⟨-1, _, rfl, by simp [attempted_writes], by simp [opened],
      Or.inl (by simp [written])⟩

theorem sysfs_write_attempted (path : String) (s : List Nat) (w : World) :
    attempted_writes (sysfs_write path s w).trace
      = attempted_writes w.trace ++ [(path, c_str s)] := by
  obtain ⟨ret, tail, h, ha, _, _⟩ := sysfs_write_trace path s w
  rw [h, attempted_writes_append]
  simp [attempted_writes] at ha ⊢
  exact ha

theorem sysfs_write_opened (path : String) (s : List Nat) (w : World) :
    ∃ ret : Int, opened (sysfs_write path s w).trace
      = opened w.trace ++ [(path, OpenFlag.O_WRONLY, ret)] := by
  obtain ⟨ret, tail, h, _, ho, _⟩ := sysfs_write_trace path s w
  refine ⟨ret, ?_⟩
  rw [h, opened_append]
  simp [opened] at ho ⊢
  exact ho

theorem sysfs_write_written (path : String) (s : List Nat) (w : World) :
    ∃ l : List (Int × Option (List Nat) × Int),
      written (sysfs_write path s w).trace = written w.trace ++ l ∧
      l.length ≤ 1 ∧ ∀ x ∈ l, x.2.1 = c_str s := by
  obtain ⟨ret, tail, h, _, _, hw⟩ := sysfs_write_trace path s w
  rcases hw with hw | ⟨n, hw⟩
  · refine ⟨[], ?_, by simp, by simp⟩
    rw [h, written_append]
    simp [written] at hw ⊢
    exact hw
  · refine ⟨[(ret, c_str s, n)], ?_, by simp, by simp⟩
    rw [h, written_append]
    simp [written] at hw ⊢
    exact hw

/-! ## Lemmas on `sysfs_read` -/

theorem sys_read_fail (fd : Int) (buf : List Nat) (size : Nat) (w : World) (e : Nat)
    (rest : List Resp) (h : w.script = Resp.fail e :: rest) :
    sys_read fd buf size w =
      (-1, buf, { script := rest, errno := e,
                  trace := w.trace ++ [Event.sys_read fd size (-1)] }) := by
  rcases w with ⟨script, errno, trace⟩
  simp only at h
  subst h
  simp [sys_read, next_resp, emit]

theorem sys_read_ok (fd : Int) (buf : List Nat) (size : Nat) (w : World) (x : Nat)
    (v : List Nat) (rest : List Resp) (h : w.script = Resp.ok x v :: rest) :
    sys_read fd buf size w =
      (((v.take size).length : Int), v.take size ++ buf.drop (v.take size).length,
        { script := rest, errno := w.errno,
          trace := w.trace ++ [Event.sys_read fd size (v.take size).length] }) := by
  rcases w with ⟨script, errno, trace⟩
  simp only at h
  subst h
  simp [sys_read, next_resp, emit]

theorem sys_read_trace (fd : Int) (buf : List Nat) (size : Nat) (w : World) :
    ∃ ret : Int, (sys_read fd buf size w).2.2.trace = w.trace ++ [Event.sys_read fd size ret] := by
  rcases w with ⟨script, errno, trace⟩
  rcases script with _ | ⟨r, rest⟩
  · exact ⟨-1, by simp [sys_read, next_resp]⟩
  · rcases r with ⟨x, v⟩ | e
    · exact ⟨_, by simp [sys_read, next_resp]; rfl⟩
    · exact ⟨-1, by simp [sys_read, next_resp]⟩

/-- The loop of `sysfs_read` only calls `read`. -/
theorem read_loop_trace (fd : Int) (size : Nat) (l : List Resp) :
    ∀ (buf : List Nat) (w : World), ∃ evs : List Event,
      (read_loop fd size l buf w).2.2.trace = w.trace ++ evs ∧
      attempted_writes evs = [] ∧ diagnostics evs = [] ∧ opened evs = [] ∧
      written evs = [] := by
  induction l with
  | nil =>
    intro buf w
    obtain ⟨ret, h⟩ := sys_read_trace fd buf size w
    exact ⟨_, by simpa [read_loop] using h, by simp [attempted_writes],
      by simp [diagnostics], by simp [opened], by simp [written]⟩
  | cons r rest ih =>
    intro buf w
    obtain ⟨ret, h⟩ := sys_read_trace fd buf size w
    simp only [read_loop]
    split
    · obtain ⟨evs, h2, ha, hd, ho, hw⟩ :=
        ih (sys_read fd buf size w).2.1 (sys_read fd buf size w).2.2
      refine ⟨Event.sys_read fd size ret :: evs, ?_, ?_, ?_, ?_, ?_⟩
      · rw [h2, h]; simp
      · simpa [attempted_writes] using ha
      · simpa [diagnostics] using hd
      · simpa [opened] using ho
      · simpa [written] using hw
    · exact ⟨_, h, by simp [attempted_writes], by simp [diagnostics], by simp [opened],
        by simp [written]⟩

/-- A call of `sysfs_read` opens the path read-only and otherwise only reads and
closes: it attempts no write and emits no diagnostic record. -/
theorem sysfs_read_trace (path : String) (buf : List Nat) (size : Nat) (w : World) :
    ∃ ret : Int, ∃ evs : List Event,
      (sysfs_read path buf size w).2.2.trace
        = w.trace ++ (Event.sys_open path OpenFlag.O_RDONLY ret :: evs) ∧
      attempted_writes evs = [] ∧ diagnostics evs = [] ∧ opened evs = [] ∧
      written evs = [] := by
  rcases w with ⟨script, errno, trace⟩
  rcases script with _ | ⟨r, rest⟩
  · exact ⟨-1, [], by simp [sysfs_read, sys_open, next_resp], rfl, rfl, rfl, rfl⟩
  · rcases r with ⟨x, v⟩ | e
    · obtain ⟨evs, h2, ha, hd, ho, hw⟩ := read_loop_trace x size rest buf
        { script := rest, errno := errno,
          trace := trace ++ [Event.sys_open path OpenFlag.O_RDONLY x] }
      refine ⟨x, evs ++ [Event.sys_close x], ?_, ?_, ?_, ?_, ?_⟩
      · simp [sysfs_read, sys_open, next_resp, sys_close, emit] at h2 ⊢
        rw [h2]
        simp
      · rw [attempted_writes_append, ha]; rfl
      · rw [diagnostics_append, hd]; rfl
      · rw [opened_append, ho]; rfl
      · rw [written_append, hw]; rfl
    · exact ⟨-1, [], by simp [sysfs_read, sys_open, next_resp], rfl, rfl, rfl, rfl⟩

/-- The loop retries while the kernel answers `EINTR` and ends with the first other
failure. -/
theorem read_loop_fail (fd : Int) (size : Nat) (e : Nat) (rest : List Resp) (he : e ≠ EINTR) :
    ∀ (k : Nat) (buf : List Nat) (w : World),
      w.script = List.replicate k (Resp.fail EINTR) ++ Resp.fail e :: rest →
      (read_loop fd size w.script buf w).1 = -1 ∧
      (read_loop fd size w.script buf w).2.2.script = rest := by
  intro k
  induction k with
  | zero =>
    intro buf w h
    simp only [List.replicate, List.nil_append] at h
    rw [h]
    simp [read_loop, sys_read_fail fd buf size w e rest h, he]
  | succ k ih =>
    intro buf w h
    simp only [List.replicate, List.cons_append] at h
    have hs := sys_read_fail fd buf size w EINTR _ h
    rw [h]
    simp only [read_loop, hs]
    simp only [Int.reduceNeg, Int.reduceLT, and_self, if_true]
    have := ih buf { script := List.replicate k (Resp.fail EINTR) ++ Resp.fail e :: rest,
                     errno := EINTR, trace := w.trace ++ [Event.sys_read fd size (-1)] } rfl
    simpa using this

/-- The loop retries while the kernel answers `EINTR` and ends with the first
successful `read`, which fills the front of the buffer. -/
theorem read_loop_ok (fd : Int) (size : Nat) (x : Nat) (v : List Nat) (rest : List Resp) :
    ∀ (k : Nat) (buf : List Nat) (w : World),
      w.script = List.replicate k (Resp.fail EINTR) ++ Resp.ok x v :: rest →
      (read_loop fd size w.script buf w).1 = ((v.take size).length : Int) ∧
      (read_loop fd size w.script buf w).2.1
        = v.take size ++ buf.drop (v.take size).length ∧
      (read_loop fd size w.script buf w).2.2.script = rest := by
  intro k
  induction k with
  | zero =>
    intro buf w h
    simp only [List.replicate, List.nil_append] at h
    rw [h]
    simp [read_loop, sys_read_ok fd buf size w x v rest h]
  | succ k ih =>
    intro buf w h
    simp only [List.replicate, List.cons_append] at h
    have hs := sys_read_fail fd buf size w EINTR _ h
    rw [h]
    simp only [read_loop, hs]
    simp only [Int.reduceNeg, Int.reduceLT, and_self, if_true]
    have := ih buf { script := List.replicate k (Resp.fail EINTR) ++ Resp.ok x v :: rest,
                     errno := EINTR, trace := w.trace ++ [Event.sys_read fd size (-1)] } rfl
    simpa using this

/-! ## Lemmas on C strings and on the conversion `%d` -/

theorem strlen_terminated (t rest : List Nat) (h : ∀ b ∈ t, b ≠ 0) :
    strlen (t ++ 0 :: rest) = some t.length := by
  induction t with
  | nil => simp [strlen]
  | cons b t ih =>
    have hb : b ≠ 0 := h b (by simp)
    have ht : ∀ c ∈ t, c ≠ 0 := fun c hc => h c (by simp [hc])
    simp [strlen, hb, ih ht]

/-- A text without NUL, followed by a NUL, is read back as that text. -/
theorem c_str_terminated (t rest : List Nat) (h : ∀ b ∈ t, b ≠ 0) :
    c_str (t ++ 0 :: rest) = some t := by
  simp [c_str, strlen_terminated t rest h]

theorem decimal_digits_pos (fuel n : Nat) : ∀ b ∈ decimal_digits fuel n, b ≠ 0 := by
  induction fuel generalizing n with
  | zero => simp [decimal_digits]
  | succ fuel ih =>
    intro b hb
    simp only [decimal_digits] at hb
    split at hb
    · simp at hb; omega
    · rcases List.mem_append.mp hb with hb | hb
      · exact ih _ b hb
      · simp at hb; omega

theorem decimal_digits_length (k : Nat) :
    ∀ fuel n, n < 10 ^ (k + 1) → (decimal_digits fuel n).length ≤ k + 1 := by
  induction k with
  | zero =>
    intro fuel n hn
    cases fuel with
    | zero => simp [decimal_digits]
    | succ fuel =>
      have : n < 10 := by simpa using hn
      simp [decimal_digits, this]
  | succ k ih =>
    intro fuel n hn
    cases fuel with
    | zero => simp [decimal_digits]
    | succ fuel =>
      simp only [decimal_digits]
      split
      · simp
      · have h10 : n / 10 < 10 ^ (k + 1) := by
          rw [Nat.div_lt_iff_lt_mul (by norm_num)]
          calc n < 10 ^ (k + 1 + 1) := hn
            _ = 10 ^ (k + 1) * 10 := by ring
        have := ih fuel (n / 10) h10
        simp
        omega

theorem decimal_digits_ne_nil (fuel n : Nat) : decimal_digits (fuel + 1) n ≠ [] := by
  simp only [decimal_digits]
  split <;> simp

theorem format_d_pos (v : Int) : ∀ b ∈ format_d v, b ≠ 0 := by
  intro b hb
  simp only [format_d] at hb
  split at hb
  · rcases List.mem_cons.mp hb with hb | hb
    · omega
    · exact decimal_digits_pos _ _ b hb
  · exact decimal_digits_pos _ _ b hb

theorem format_d_length (v : Int) (hlo : -2 ^ 31 ≤ v) (hhi : v < 2 ^ 31) :
    (format_d v).length ≤ 11 := by
  have hn : v.natAbs < 10 ^ (9 + 1) := by omega
  have := decimal_digits_length 9 (v.natAbs + 1) v.natAbs hn
  simp only [format_d]
  split
  · simp; omega
  · omega

theorem int_of_ptr_range (data : Nat) : -2 ^ 31 ≤ int_of_ptr data ∧ int_of_ptr data < 2 ^ 31 := by
  simp only [int_of_ptr]
  split <;> omega

/-- The word of an integer in the 32-bit signed range is read back as that integer. -/
theorem int_of_ptr_of_int (n : Int) (hlo : -2 ^ 31 ≤ n) (hhi : n < 2 ^ 31) :
    int_of_ptr (ptr_of_int n) = n := by
  simp only [int_of_ptr, ptr_of_int]
  split <;> omega

theorem int_of_ptr_ne_zero (data : Nat) (h0 : data ≠ 0) (h : data < 2 ^ 32) :
    int_of_ptr data ≠ 0 := by
  simp only [int_of_ptr]
  split <;> omega

/-- After `snprintf(buf, 80, "%d", v)` the array holds the text of `v` as a C string,
whatever it held before. -/
theorem c_str_snprintf_d (buf : List Nat) (v : Int) (hlo : -2 ^ 31 ≤ v) (hhi : v < 2 ^ 31) :
    c_str (snprintf_d buf 80 v) = some (format_d v) := by
  have hl := format_d_length v hlo hhi
  have ht : (format_d v).take (80 - 1) = format_d v := List.take_of_length_le (by omega)
  simp only [snprintf_d, ht, List.append_assoc, List.singleton_append]
  exact c_str_terminated _ _ (format_d_pos v)

theorem digitChar_toNat (m : Nat) (h : m < 10) : (Nat.digitChar m).toNat = 48 + m := by
  interval_cases m <;> rfl

theorem toDigitsCore_eq (fuel : Nat) : ∀ (n : Nat) (acc : List Char),
    (Nat.toDigitsCore 10 fuel n acc).map Char.toNat
      = decimal_digits fuel n ++ acc.map Char.toNat := by
  induction fuel with
  | zero => intro n acc; simp [Nat.toDigitsCore, decimal_digits]
  | succ fuel ih =>
    intro n acc
    simp only [Nat.toDigitsCore, decimal_digits]
    by_cases h : n < 10
    · have h0 : n / 10 = 0 := by omega
      have hm : n % 10 = n := by omega
      simp [h0, h, hm, digitChar_toNat n h]
    · have h0 : n / 10 ≠ 0 := by omega
      simp [h0, h, ih, digitChar_toNat (n % 10) (by omega)]

theorem toString_nat_data (m : Nat) :
    (toString m).data.map Char.toNat = decimal_digits (m + 1) m := by
  have h : (toString m).data = Nat.toDigitsCore 10 (m + 1) m [] := rfl
  rw [h, toDigitsCore_eq]
  simp

/-- The text of `%d` is the decimal rendering of the integer: digits without padding,
a leading `-` for a negative value. -/
theorem format_d_eq_toString (v : Int) : format_d v = bytes (toString v) := by
  cases v with
  | ofNat m =>
    have : ¬ ((Int.ofNat m) < 0) := by simp
    simp only [format_d, this, if_false, Int.natAbs_ofNat, bytes]
    show _ = (toString m).toList.map Char.toNat
    exact (toString_nat_data m).symm
  | negSucc m =>
    have : (Int.negSucc m) < 0 := Int.negSucc_lt_zero m
    simp only [format_d, this, if_true, bytes]
    show _ = ("-" ++ toString (m + 1)).toList.map Char.toNat
    have h := toString_nat_data (m + 1)
    simp [Int.natAbs_negSucc, ← h]

/-! ## Lemmas on `boostpulse_open` and `p760_power_hint` -/

theorem sys_write_ok (fd : Int) (p : Option (List Nat)) (w : World) (n : Nat) (d : List Nat)
    (h : peek w 0 = Resp.ok n d) :
    sys_write fd p w = ((n : Int),
      { script := w.script.tail, errno := w.errno,
        trace := w.trace ++ [Event.sys_write fd p n] }) := by
  rcases w with ⟨script, errno, trace⟩
  rcases script with _ | ⟨r, rest⟩
  · simp [peek] at h
  · simp [peek] at h
    subst h
    simp [sys_write, next_resp, emit]

theorem sys_write_fail (fd : Int) (p : Option (List Nat)) (w : World) (e : Nat)
    (h : peek w 0 = Resp.fail e) :
    sys_write fd p w = (-1,
      { script := w.script.tail, errno := e,
        trace := w.trace ++ [Event.sys_write fd p (-1)] }) := by
  rcases w with ⟨script, errno, trace⟩
  rcases script with _ | ⟨r, rest⟩
  · simp [peek] at h
    simp [sys_write, next_resp, emit, h]
  · simp [peek] at h
    subst h
    simp [sys_write, next_resp, emit]

theorem sys_open_ok (path : String) (fl : OpenFlag) (w : World) (n : Nat) (d : List Nat)
    (h : peek w 0 = Resp.ok n d) :
    sys_open path fl w = ((n : Int),
      { script := w.script.tail, errno := w.errno,
        trace := w.trace ++ [Event.sys_open path fl n] }) := by
  rcases w with ⟨script, errno, trace⟩
  rcases script with _ | ⟨r, rest⟩
  · simp [peek] at h
  · simp [peek] at h
    subst h
    simp [sys_open, next_resp, emit]

theorem sys_open_fail (path : String) (fl : OpenFlag) (w : World) (e : Nat)
    (h : peek w 0 = Resp.fail e) :
    sys_open path fl w = (-1,
      { script := w.script.tail, errno := e,
        trace := w.trace ++ [Event.sys_open path fl (-1)] }) := by
  rcases w with ⟨script, errno, trace⟩
  rcases script with _ | ⟨r, rest⟩
  · simp [peek] at h
    simp [sys_open, next_resp, emit, h]
  · simp [peek] at h
    subst h
    simp [sys_open, next_resp, emit]

theorem peek_tail (s : List Resp) (e : Nat) (tr : List Event) (i : Nat) :
    peek { script := s.tail, errno := e, trace := tr } i
      = peek { script := s, errno := e, trace := tr } (i + 1) := by
  cases s <;> simp [peek]

theorem peek_script (w : World) (e : Nat) (tr : List Event) (i : Nat) :
    peek { script := w.script, errno := e, trace := tr } i = peek w i := rfl

theorem hint_duration_range (data : Nat) :
    -2 ^ 31 ≤ hint_duration data ∧ hint_duration data < 2 ^ 31 := by
  simp only [hint_duration]
  split
  · exact int_of_ptr_range data
  · omega

/-- The bytes a pulse sends: the text of the duration. -/
theorem pulse_payload (buf : List Nat) (data : Nat) :
    c_str (snprintf_d buf 80 (if data ≠ NULL then int_of_ptr data else 1))
      = some (format_d (hint_duration data)) :=
  c_str_snprintf_d buf (hint_duration data) (hint_duration_range data).1
    (hint_duration_range data).2

theorem pulse_payload_ite (buf : List Nat) (data : Nat) :
    c_str (snprintf_d buf 80 (if data = NULL then 1 else int_of_ptr data))
      = some (format_d (hint_duration data)) := by
  have h := pulse_payload buf data
  simpa using h

/-- A pulse on a handle that is already open: one `write` on that handle, no `open`,
the state unchanged; a failed `write` is reported and the handle kept. -/
theorem hint_with_handle (st : State) (hint : power_hint_t) (data : Nat) (buf : List Nat)
    (w : World) (hh : is_boost_hint hint) (hfd : 0 ≤ st.boostpulse_fd) :
    (∀ n d, peek w 0 = Resp.ok n d →
      p760_power_hint st hint data buf w =
        (st,
         { script := w.script.tail, errno := w.errno,
           trace := w.trace ++
             [Event.sys_write st.boostpulse_fd (some (format_d (hint_duration data))) n] })) ∧
    (∀ e, peek w 0 = Resp.fail e →
      p760_power_hint st hint data buf w =
        (st,
         { script := w.script.tail, errno := e,
           trace := w.trace ++
             [Event.sys_write st.boostpulse_fd (some (format_d (hint_duration data))) (-1),
              Event.aloge "Error writing to %s: %s\n" BOOSTPULSE_PATH e] })) := by
  have hnot : ¬ st.boostpulse_fd < 0 := by omega
  constructor
  · intro n d h
    rcases hh with hh | hh <;> subst hh <;>
      simp [p760_power_hint, boostpulse_open, hnot, hfd, pulse_payload_ite,
        sys_write_ok _ _ w n d h]
  · intro e h
    rcases hh with hh | hh <;> subst hh <;>
      simp [p760_power_hint, boostpulse_open, hnot, hfd, pulse_payload_ite,
        sys_write_fail _ _ w e h, ALOGE, emit]

/-- A pulse without a handle whose `open` fails: the open is attempted, nothing is
written, and the failure is reported only if no warning was given before. -/
theorem hint_open_fails (st : State) (hint : power_hint_t) (data : Nat) (buf : List Nat)
    (w : World) (hh : is_boost_hint hint) (hfd : st.boostpulse_fd < 0) (e : Nat)
    (h : peek w 0 = Resp.fail e) :
    p760_power_hint st hint data buf w =
      ({ st with boostpulse_fd := -1,
                 boostpulse_warned := if st.boostpulse_warned = 0 then 1
                                      else st.boostpulse_warned },
       { script := w.script.tail, errno := e,
         trace := w.trace ++ (Event.sys_open BOOSTPULSE_PATH OpenFlag.O_WRONLY (-1) ::
           if st.boostpulse_warned = 0
           then [Event.aloge "Error opening %s: %s\n" BOOSTPULSE_PATH e] else []) }) := by
  by_cases hw : st.boostpulse_warned = 0
  · rcases hh with hh | hh <;> subst hh <;>
      simp [p760_power_hint, boostpulse_open, hfd, hw, sys_open_fail _ _ w e h, ALOGE, emit]
  · rcases hh with hh | hh <;> subst hh <;>
      simp [p760_power_hint, boostpulse_open, hfd, hw, sys_open_fail _ _ w e h, ALOGE, emit]

/-- A pulse without a handle whose `open` succeeds: the descriptor is stored and the
duration written to it. -/
theorem hint_open_succeeds (st : State) (hint : power_hint_t) (data : Nat) (buf : List Nat)
    (w : World) (hh : is_boost_hint hint) (hfd : st.boostpulse_fd < 0) (fd : Nat)
    (d : List Nat) (h : peek w 0 = Resp.ok fd d) :
    (∀ n d2, peek w 1 = Resp.ok n d2 →
      p760_power_hint st hint data buf w =
        ({ st with boostpulse_fd := fd },
         { script := w.script.tail.tail, errno := w.errno,
           trace := w.trace ++ [Event.sys_open BOOSTPULSE_PATH OpenFlag.O_WRONLY fd,
             Event.sys_write fd (some (format_d (hint_duration data))) n] })) ∧
    (∀ e, peek w 1 = Resp.fail e →
      p760_power_hint st hint data buf w =
        ({ st with boostpulse_fd := fd },
         { script := w.script.tail.tail, errno := e,
           trace := w.trace ++ [Event.sys_open BOOSTPULSE_PATH OpenFlag.O_WRONLY fd,
             Event.sys_write fd (some (format_d (hint_duration data))) (-1),
             Event.aloge "Error writing to %s: %s\n" BOOSTPULSE_PATH e] })) := by
  constructor
  · intro n d2 h1
    have h1' : peek
        { script := w.script.tail, errno := w.errno,
          trace := w.trace ++ [Event.sys_open BOOSTPULSE_PATH OpenFlag.O_WRONLY fd] } 0
        = Resp.ok n d2 := by rw [peek_tail]; exact h1
    rcases hh with hh | hh <;> subst hh <;>
      simp [p760_power_hint, boostpulse_open, hfd, pulse_payload_ite, sys_open_ok _ _ w fd d h,
        sys_write_ok _ _ _ n d2 h1']
  · intro e h1
    have h1' : peek
        { script := w.script.tail, errno := w.errno,
          trace := w.trace ++ [Event.sys_open BOOSTPULSE_PATH OpenFlag.O_WRONLY fd] } 0
        = Resp.fail e := by rw [peek_tail]; exact h1
    rcases hh with hh | hh <;> subst hh <;>
      simp [p760_power_hint, boostpulse_open, hfd, pulse_payload_ite, sys_open_ok _ _ w fd d h,
        sys_write_fail _ _ _ e h1', ALOGE, emit]

/-- A hint that is neither INTERACTION nor CPU_BOOST does nothing. -/
theorem p760_power_hint_noop (st : State) (hint : power_hint_t) (data : Nat)
    (buf : List Nat) (w : World) (h : ¬ is_boost_hint hint) :
    p760_power_hint st hint data buf w = (st, w) := by
  cases hint with
  | POWER_HINT_VSYNC => rfl
  | POWER_HINT_INTERACTION => exact absurd (Or.inl rfl) h
  | POWER_HINT_CPU_BOOST => exact absurd (Or.inr rfl) h
  | other code => rfl

/-! ## Lemmas on `p760_power_set_interactive` -/

theorem set_interactive_on (st : State) (on_ : Int) (buf : List Nat) (w : World)
    (h : on_ ≠ 0) :
    p760_power_set_interactive st on_ buf w =
      (st, sysfs_write TIMER_RATE_PATH (lit TIMER_RATE_SCREEN_ON)
            (sysfs_write SCALINGMAXFREQ_PATH st.scaling_max_freq w)) := by
  simp [p760_power_set_interactive, h, TIMER_RATE_PATH]

theorem set_interactive_off_fail (st : State) (buf : List Nat) (w : World)
    (h : (sysfs_read SCALINGMAXFREQ_PATH buf MAX_BUF_SZ w).1 = -1) :
    p760_power_set_interactive st 0 buf w =
      (st, sysfs_write TIMER_RATE_PATH (lit TIMER_RATE_SCREEN_OFF)
            (sysfs_write SCALINGMAXFREQ_PATH st.screen_off_max_freq
              (sysfs_read SCALINGMAXFREQ_PATH buf MAX_BUF_SZ w).2.2)) := by
  simp [p760_power_set_interactive, h, TIMER_RATE_PATH]

theorem set_interactive_off_ok (st : State) (buf : List Nat) (w : World)
    (h : (sysfs_read SCALINGMAXFREQ_PATH buf MAX_BUF_SZ w).1 ≠ -1) :
    p760_power_set_interactive st 0 buf w =
      ({ st with
           scaling_max_freq :=
             memcpy st.scaling_max_freq
               (sysfs_read SCALINGMAXFREQ_PATH buf MAX_BUF_SZ w).2.1 MAX_BUF_SZ },
       sysfs_write TIMER_RATE_PATH (lit TIMER_RATE_SCREEN_OFF)
            (sysfs_write SCALINGMAXFREQ_PATH st.screen_off_max_freq
              (sysfs_read SCALINGMAXFREQ_PATH buf MAX_BUF_SZ w).2.2)) := by
  simp [p760_power_set_interactive, h, TIMER_RATE_PATH]

/-- The entry point `setInteractive` changes no field but `scaling_max_freq`. -/
theorem set_interactive_fields (st : State) (on_ : Int) (buf : List Nat) (w : World) :
    (p760_power_set_interactive st on_ buf w).1.boostpulse_fd = st.boostpulse_fd ∧
    (p760_power_set_interactive st on_ buf w).1.boostpulse_warned = st.boostpulse_warned ∧
    (p760_power_set_interactive st on_ buf w).1.screen_off_max_freq
      = st.screen_off_max_freq := by
  by_cases h : on_ = 0
  · subst h
    by_cases hr : (sysfs_read SCALINGMAXFREQ_PATH buf MAX_BUF_SZ w).1 = -1
    · rw [set_interactive_off_fail st buf w hr]; exact ⟨rfl, rfl, rfl⟩
    · rw [set_interactive_off_ok st buf w hr]; exact ⟨rfl, rfl, rfl⟩
  · rw [set_interactive_on st on_ buf w h]; exact ⟨rfl, rfl, rfl⟩

/-- The attempted writes of `setInteractive`, for every state and every answer of the
kernel. -/
theorem set_interactive_attempted (st : State) (on_ : Int) (buf : List Nat) (w : World) :
    attempted_writes (p760_power_set_interactive st on_ buf w).2.trace =
      attempted_writes w.trace ++
        (if on_ = 0 then
          [(SCALINGMAXFREQ_PATH, c_str st.screen_off_max_freq),
           (TIMER_RATE_PATH, some (bytes "500000"))]
         else
          [(SCALINGMAXFREQ_PATH, c_str st.scaling_max_freq),
           (TIMER_RATE_PATH, some (bytes "20000"))]) := by
  have hon : c_str (lit TIMER_RATE_SCREEN_ON) = some (bytes "20000") := by decide
  have hoff : c_str (lit TIMER_RATE_SCREEN_OFF) = some (bytes "500000") := by decide
  have hread : attempted_writes (sysfs_read SCALINGMAXFREQ_PATH buf MAX_BUF_SZ w).2.2.trace
      = attempted_writes w.trace := by
    obtain ⟨ret, evs, h, ha, _, _, _⟩ := sysfs_read_trace SCALINGMAXFREQ_PATH buf MAX_BUF_SZ w
    rw [h, attempted_writes_append]
    simp [attempted_writes] at ha ⊢
    exact ha
  by_cases h : on_ = 0
  · subst h
    by_cases hr : (sysfs_read SCALINGMAXFREQ_PATH buf MAX_BUF_SZ w).1 = -1
    · rw [set_interactive_off_fail st buf w hr]
      simp [sysfs_write_attempted, hread, hoff]
    · rw [set_interactive_off_ok st buf w hr]
      simp [sysfs_write_attempted, hread, hoff]
  · rw [set_interactive_on st on_ buf w h]
    simp [sysfs_write_attempted, hon, h]

/-- The calls of `write` of `setInteractive`: at most two, carrying the two attempted
values in their order. -/
theorem set_interactive_written (st : State) (on_ : Int) (buf : List Nat) (w : World) :
    ∃ l : List (Int × Option (List Nat) × Int),
      written (p760_power_set_interactive st on_ buf w).2.trace = written w.trace ++ l ∧
      (l.map fun x => x.2.1).Sublist
        (if on_ = 0 then [c_str st.screen_off_max_freq, some (bytes "500000")]
         else [c_str st.scaling_max_freq, some (bytes "20000")]) := by
  have hon : c_str (lit TIMER_RATE_SCREEN_ON) = some (bytes "20000") := by decide
  have hoff : c_str (lit TIMER_RATE_SCREEN_OFF) = some (bytes "500000") := by decide
  have hread : written (sysfs_read SCALINGMAXFREQ_PATH buf MAX_BUF_SZ w).2.2.trace
      = written w.trace := by
    obtain ⟨ret, evs, h, _, _, _, hw⟩ := sysfs_read_trace SCALINGMAXFREQ_PATH buf MAX_BUF_SZ w
    rw [h, written_append]
    simp [written] at hw ⊢
    exact hw
  have two : ∀ (w0 : World) (s1 s2 : List Nat),
      ∃ l : List (Int × Option (List Nat) × Int),
        written (sysfs_write TIMER_RATE_PATH s2 (sysfs_write SCALINGMAXFREQ_PATH s1 w0)).trace
          = written w0.trace ++ l ∧
        (l.map fun x => x.2.1).Sublist [c_str s1, c_str s2] := by
    intro w0 s1 s2
    obtain ⟨l1, h1, hl1, hp1⟩ := sysfs_write_written SCALINGMAXFREQ_PATH s1 w0
    obtain ⟨l2, h2, hl2, hp2⟩ := sysfs_write_written TIMER_RATE_PATH s2
      (sysfs_write SCALINGMAXFREQ_PATH s1 w0)
    refine ⟨l1 ++ l2, by rw [h2, h1, List.append_assoc], ?_⟩
    have e1 : (l1.map fun x => x.2.1).Sublist [c_str s1] := by
      rcases l1 with _ | ⟨a, _ | ⟨b, t⟩⟩
      · simp
      · have := hp1 a (by simp); simp [this]
      · simp at hl1
    have e2 : (l2.map fun x => x.2.1).Sublist [c_str s2] := by
      rcases l2 with _ | ⟨a, _ | ⟨b, t⟩⟩
      · simp
      · have := hp2 a (by simp); simp [this]
      · simp at hl2
    have := List.Sublist.append e1 e2
    simpa using this
  by_cases h : on_ = 0
  · subst h
    by_cases hr : (sysfs_read SCALINGMAXFREQ_PATH buf MAX_BUF_SZ w).1 = -1
    · rw [set_interactive_off_fail st buf w hr]
      obtain ⟨l, hl, hs⟩ := two (sysfs_read SCALINGMAXFREQ_PATH buf MAX_BUF_SZ w).2.2
        st.screen_off_max_freq (lit TIMER_RATE_SCREEN_OFF)
      exact ⟨l, by rw [hl, hread], by simpa [hoff] using hs⟩
    · rw [set_interactive_off_ok st buf w hr]
      obtain ⟨l, hl, hs⟩ := two (sysfs_read SCALINGMAXFREQ_PATH buf MAX_BUF_SZ w).2.2
        st.screen_off_max_freq (lit TIMER_RATE_SCREEN_OFF)
      exact ⟨l, by rw [hl, hread], by simpa [hoff] using hs⟩
  · rw [set_interactive_on st on_ buf w h]
    obtain ⟨l, hl, hs⟩ := two w st.scaling_max_freq (lit TIMER_RATE_SCREEN_ON)
    exact ⟨l, hl, by simpa [hon, h] using hs⟩

/-! ## Lemmas on runs -/

theorem run_nil (sw : State × World) : run sw [] = sw := rfl

theorem run_cons (sw : State × World) (c : Call) (cs : List Call) :
    run sw (c :: cs) = run (step sw c) cs := rfl

theorem run_append (sw : State × World) (a b : List Call) :
    run sw (a ++ b) = run (run sw a) b := by
  simp [run, List.foldl_append]

theorem boost_opens_append (a b : List Event) :
    boost_opens (a ++ b) = boost_opens a ++ boost_opens b := by
  simp [boost_opens, opened_append]

theorem successful_boost_opens_append (a b : List Event) :
    successful_boost_opens (a ++ b) = successful_boost_opens a ++ successful_boost_opens b := by
  simp [successful_boost_opens, boost_opens_append]

theorem sysfs_write_boost_opens (path : String) (s : List Nat) (w : World)
    (h : path ≠ BOOSTPULSE_PATH) :
    boost_opens (sysfs_write path s w).trace = boost_opens w.trace := by
  obtain ⟨ret, ho⟩ := sysfs_write_opened path s w
  simp [boost_opens, ho, h]

theorem sysfs_read_boost_opens (path : String) (buf : List Nat) (size : Nat) (w : World)
    (h : path ≠ BOOSTPULSE_PATH) :
    boost_opens (sysfs_read path buf size w).2.2.trace = boost_opens w.trace := by
  obtain ⟨ret, evs, ht, _, _, ho, _⟩ := sysfs_read_trace path buf size w
  have : opened (sysfs_read path buf size w).2.2.trace
      = opened w.trace ++ [(path, OpenFlag.O_RDONLY, ret)] := by
    rw [ht, opened_append]
    simp [opened] at ho ⊢
    exact ho
  simp [boost_opens, this, h]

theorem init_boost_opens (w : World) :
    boost_opens (p760_power_init w).trace = boost_opens w.trace := by
  simp only [p760_power_init]
  repeat rw [sysfs_write_boost_opens _ _ _ (by decide)]

theorem set_interactive_boost_opens (st : State) (on_ : Int) (buf : List Nat) (w : World) :
    boost_opens (p760_power_set_interactive st on_ buf w).2.trace = boost_opens w.trace := by
  have h1 : TIMER_RATE_PATH ≠ BOOSTPULSE_PATH := by decide
  have h2 : SCALINGMAXFREQ_PATH ≠ BOOSTPULSE_PATH := by decide
  by_cases h : on_ = 0
  · subst h
    by_cases hr : (sysfs_read SCALINGMAXFREQ_PATH buf MAX_BUF_SZ w).1 = -1
    · rw [set_interactive_off_fail st buf w hr]
      simp only [sysfs_write_boost_opens _ _ _ h1, sysfs_write_boost_opens _ _ _ h2,
        sysfs_read_boost_opens _ _ _ _ h2]
    · rw [set_interactive_off_ok st buf w hr]
      simp only [sysfs_write_boost_opens _ _ _ h1, sysfs_write_boost_opens _ _ _ h2,
        sysfs_read_boost_opens _ _ _ _ h2]
  · rw [set_interactive_on st on_ buf w h]
    simp only [sysfs_write_boost_opens _ _ _ h1, sysfs_write_boost_opens _ _ _ h2]

/-- A pulse on a handle that is already open, in terms of the observations. -/
theorem hint_with_handle_obs (st : State) (hint : power_hint_t) (data : Nat)
    (buf : List Nat) (w : World) (hh : is_boost_hint hint) (hfd : 0 ≤ st.boostpulse_fd) :
    (p760_power_hint st hint data buf w).1 = st ∧
    opened (p760_power_hint st hint data buf w).2.trace = opened w.trace ∧
    closed (p760_power_hint st hint data buf w).2.trace = closed w.trace ∧
    ∃ ret : Int, written (p760_power_hint st hint data buf w).2.trace
      = written w.trace ++ [(st.boostpulse_fd, some (format_d (hint_duration data)), ret)] ∧
      diagnostics (p760_power_hint st hint data buf w).2.trace
        = diagnostics w.trace ++
          (if ret < 0 then [("Error writing to %s: %s\n", BOOSTPULSE_PATH,
            (p760_power_hint st hint data buf w).2.errno)] else []) := by
  obtain ⟨hok, hfail⟩ := hint_with_handle st hint data buf w hh hfd
  rcases h : peek w 0 with ⟨n, d⟩ | e
  · rw [hok n d h]
    exact ⟨rfl, by simp [opened, List.filterMap_append],
      by simp [closed, List.filterMap_append], n,
      by simp [written, List.filterMap_append],
      by simp [diagnostics, List.filterMap_append]⟩
  · rw [hfail e h]
    exact ⟨rfl, by simp [opened, List.filterMap_append],
      by simp [closed, List.filterMap_append], -1,
      by simp [written, List.filterMap_append],
      by simp [diagnostics, List.filterMap_append]⟩

/-- Once the module holds a handle, no call changes it or opens the boost attribute. -/
theorem step_keeps_handle (st : State) (w : World) (c : Call) (hfd : 0 ≤ st.boostpulse_fd) :
    (step (st, w) c).1.boostpulse_fd = st.boostpulse_fd ∧
    boost_opens (step (st, w) c).2.trace = boost_opens w.trace := by
  cases c with
  | init => exact ⟨rfl, init_boost_opens w⟩
  | setInteractive on_ buf =>
    exact ⟨(set_interactive_fields st on_ buf w).1, set_interactive_boost_opens st on_ buf w⟩
  | powerHint hint data buf =>
    by_cases hh : is_boost_hint hint
    · obtain ⟨h1, h2, _⟩ := hint_with_handle_obs st hint data buf w hh hfd
      simp only [step]
      rw [h1]
      exact ⟨rfl, by simp [boost_opens, h2]⟩
    · have h := p760_power_hint_noop st hint data buf w hh
      simp only [step]
      rw [h]
      exact ⟨rfl, rfl⟩

theorem run_keeps_handle (calls : List Call) :
    ∀ (st : State) (w : World), 0 ≤ st.boostpulse_fd →
      (run (st, w) calls).1.boostpulse_fd = st.boostpulse_fd ∧
      boost_opens (run (st, w) calls).2.trace = boost_opens w.trace := by
  induction calls with
  | nil => intro st w _; exact ⟨rfl, rfl⟩
  | cons c cs ih =>
    intro st w hfd
    obtain ⟨h1, h2⟩ := step_keeps_handle st w c hfd
    rw [run_cons]
    obtain ⟨h3, h4⟩ := ih (step (st, w) c).1 (step (st, w) c).2 (by rw [h1]; exact hfd)
    exact ⟨by rw [h3, h1], by rw [h4, h2]⟩

theorem successful_of_boost_opens (a b : List Event) (h : boost_opens a = boost_opens b) :
    successful_boost_opens a = successful_boost_opens b := by
  simp [successful_boost_opens, h]

/-- Every call keeps the handle and the trace in agreement. -/
theorem step_handle_invariant (st : State) (w : World) (c : Call)
    (h : handle_invariant st w.trace) :
    handle_invariant (step (st, w) c).1 (step (st, w) c).2.trace := by
  rcases h with ⟨hfd, hs⟩ | ⟨hfd, hs⟩
  · cases c with
    | init =>
      left
      exact ⟨hfd, by rw [← hs]; exact successful_of_boost_opens _ _ (init_boost_opens w)⟩
    | setInteractive on_ buf =>
      left
      refine ⟨?_, ?_⟩
      · simp only [step]; rw [(set_interactive_fields st on_ buf w).1]; exact hfd
      · rw [← hs]
        exact successful_of_boost_opens _ _ (set_interactive_boost_opens st on_ buf w)
    | powerHint hint data buf =>
      simp only [step]
      by_cases hh : is_boost_hint hint
      · rcases h0 : peek w 0 with ⟨n, d⟩ | e
        · obtain ⟨hok, hfail⟩ := hint_open_succeeds st hint data buf w hh hfd n d h0
          right
          rcases h1 : peek w 1 with ⟨m, d2⟩ | e
          · rw [hok m d2 h1]
            refine ⟨by simp, ?_⟩
            simp only [successful_boost_opens_append, hs]
            simp [successful_boost_opens, boost_opens, opened]
          · rw [hfail e h1]
            refine ⟨by simp, ?_⟩
            simp only [successful_boost_opens_append, hs]
            simp [successful_boost_opens, boost_opens, opened]
        · rw [hint_open_fails st hint data buf w hh hfd e h0]
          left
          refine ⟨by simp, ?_⟩
          simp only [successful_boost_opens_append, hs]
          by_cases hw : st.boostpulse_warned = 0 <;>
            simp [successful_boost_opens, boost_opens, opened, hw]
      · rw [p760_power_hint_noop st hint data buf w hh]
        exact Or.inl ⟨hfd, hs⟩
  · obtain ⟨h1, h2⟩ := step_keeps_handle st w c hfd
    right
    refine ⟨by rw [h1]; exact hfd, ?_⟩
    rw [h1, ← hs]
    exact successful_of_boost_opens _ _ h2

theorem run_handle_invariant (calls : List Call) :
    ∀ (st : State) (w : World), handle_invariant st w.trace →
      handle_invariant (run (st, w) calls).1 (run (st, w) calls).2.trace := by
  induction calls with
  | nil => intro st w h; exact h
  | cons c cs ih =>
    intro st w h
    rw [run_cons]
    exact ih _ _ (step_handle_invariant st w c h)

theorem getD_tail (s : List Resp) (i : Nat) (d : Resp) : s.tail.getD i d = s.getD (i + 1) d := by
  cases s <;> simp

theorem peek_of_script_tail (w w1 : World) (h : w1.script = w.script.tail) (i : Nat) :
    peek w1 i = peek w (i + 1) := by
  simp only [peek, h, getD_tail]

/-- A pulse without a handle whose `open` fails, in terms of the observations. -/
theorem hint_open_fails_obs (st : State) (hint : power_hint_t) (data : Nat) (buf : List Nat)
    (w : World) (hh : is_boost_hint hint) (hfd : st.boostpulse_fd < 0) (e : Nat)
    (h : peek w 0 = Resp.fail e) :
    (p760_power_hint st hint data buf w).1.boostpulse_fd = -1 ∧
    (p760_power_hint st hint data buf w).1.boostpulse_warned
      = (if st.boostpulse_warned = 0 then 1 else st.boostpulse_warned) ∧
    (p760_power_hint st hint data buf w).2.script = w.script.tail ∧
    diagnostics (p760_power_hint st hint data buf w).2.trace = diagnostics w.trace ++
      (if st.boostpulse_warned = 0
       then [("Error opening %s: %s\n", BOOSTPULSE_PATH, e)] else []) ∧
    opened (p760_power_hint st hint data buf w).2.trace
      = opened w.trace ++ [(BOOSTPULSE_PATH, OpenFlag.O_WRONLY, -1)] ∧
    written (p760_power_hint st hint data buf w).2.trace = written w.trace := by
  rw [hint_open_fails st hint data buf w hh hfd e h]
  by_cases hw : st.boostpulse_warned = 0 <;>
    simp [diagnostics, opened, written, List.filterMap_append, hw]

/-- A run of pulses after the warning, in which every `open` fails: every call
attempts the open, none writes, none emits a diagnostic record. -/
theorem run_open_failures_warned (calls : List Call) :
    ∀ (st : State) (w : World), st.boostpulse_fd = -1 → st.boostpulse_warned ≠ 0 →
      (∀ c ∈ calls, is_boost_call c) →
      (∀ i, i < calls.length → ∃ e, peek w i = Resp.fail e) →
      (run (st, w) calls).1.boostpulse_fd = -1 ∧
      (run (st, w) calls).1.boostpulse_warned = st.boostpulse_warned ∧
      diagnostics (run (st, w) calls).2.trace = diagnostics w.trace ∧
      opened (run (st, w) calls).2.trace = opened w.trace ++
        List.replicate calls.length (BOOSTPULSE_PATH, OpenFlag.O_WRONLY, -1) ∧
      written (run (st, w) calls).2.trace = written w.trace := by
  induction calls with
  | nil =>
    intro st w hfd _ _ _
    simp [run_nil, hfd]
  | cons c cs ih =>
    intro st w hfd hw hc hf
    obtain ⟨hint, data, buf, hh, rfl⟩ := hc c (by simp)
    obtain ⟨e, he⟩ := hf 0 (by simp)
    obtain ⟨s1, s2, s3, s4, s5, s6⟩ :=
      hint_open_fails_obs st hint data buf w hh (by omega) e he
    rw [run_cons]
    simp only [step]
    generalize p760_power_hint st hint data buf w = sw1 at s1 s2 s3 s4 s5 s6 ⊢
    rcases sw1 with ⟨st1, w1⟩
    simp only at s1 s2 s3 s4 s5 s6
    simp only [hw, if_false] at s2 s4
    have hcs : ∀ c ∈ cs, is_boost_call c := fun c h => hc c (by simp [h])
    have hfs : ∀ i, i < cs.length → ∃ e1, peek w1 i = Resp.fail e1 := by
      intro i hi
      obtain ⟨e1, h1⟩ := hf (i + 1) (by simp; omega)
      exact ⟨e1, by rw [peek_of_script_tail w w1 s3]; exact h1⟩
    obtain ⟨r1, r2, r3, r4, r5⟩ := ih st1 w1 s1 (by rw [s2]; exact hw) hcs hfs
    refine ⟨r1, by rw [r2, s2], by rw [r3, s4]; simp, ?_, by rw [r5, s6]⟩
    rw [r4, s5]
    simp [List.replicate_succ]

/-- A run of pulses from a state without handle and without warning, in which every
`open` fails: every call attempts the open, none writes, and the only diagnostic
record is the one of the first call. -/
theorem run_open_failures (c : Call) (cs : List Call) (st : State) (w : World)
    (hfd : st.boostpulse_fd < 0) (hw : st.boostpulse_warned = 0)
    (hc : ∀ x ∈ c :: cs, is_boost_call x)
    (hf : ∀ i, i < (c :: cs).length → ∃ e, peek w i = Resp.fail e) :
    ∃ e0, peek w 0 = Resp.fail e0 ∧
      (run (st, w) (c :: cs)).1.boostpulse_fd = -1 ∧
      (run (st, w) (c :: cs)).1.boostpulse_warned = 1 ∧
      diagnostics (run (st, w) (c :: cs)).2.trace
        = diagnostics w.trace ++ [("Error opening %s: %s\n", BOOSTPULSE_PATH, e0)] ∧
      opened (run (st, w) (c :: cs)).2.trace = opened w.trace ++
        List.replicate (c :: cs).length (BOOSTPULSE_PATH, OpenFlag.O_WRONLY, -1) ∧
      written (run (st, w) (c :: cs)).2.trace = written w.trace := by
  obtain ⟨hint, data, buf, hh, rfl⟩ := hc c (by simp)
  obtain ⟨e, he⟩ := hf 0 (by simp)
  obtain ⟨s1, s2, s3, s4, s5, s6⟩ := hint_open_fails_obs st hint data buf w hh hfd e he
  refine ⟨e, he, ?_⟩
  rw [run_cons]
  simp only [step]
  generalize p760_power_hint st hint data buf w = sw1 at s1 s2 s3 s4 s5 s6 ⊢
  rcases sw1 with ⟨st1, w1⟩
  simp only at s1 s2 s3 s4 s5 s6
  simp only [hw, if_true] at s2 s4
  have hcs : ∀ x ∈ cs, is_boost_call x := fun x h => hc x (by simp [h])
  have hfs : ∀ i, i < cs.length → ∃ e1, peek w1 i = Resp.fail e1 := by
    intro i hi
    obtain ⟨e1, h1⟩ := hf (i + 1) (by simp; omega)
    exact ⟨e1, by rw [peek_of_script_tail w w1 s3]; exact h1⟩
  obtain ⟨r1, r2, r3, r4, r5⟩ :=
    run_open_failures_warned cs st1 w1 s1 (by rw [s2]; decide) hcs hfs
  refine ⟨r1, by rw [r2, s2], by rw [r3, s4], ?_, by rw [r5, s6]⟩
  rw [r4, s5]
  simp [List.replicate_succ]

/-- The bytes of a pulse, when the boost attribute can be opened: one `write` on the
handle, carrying the text of the duration. -/
theorem hint_written_of_openable (st : State) (hint : power_hint_t) (data : Nat)
    (buf : List Nat) (w : World) (hh : is_boost_hint hint) (fd : Int)
    (ho : boost_openable st w fd) :
    ∃ ret : Int, written (p760_power_hint st hint data buf w).2.trace
      = written w.trace ++ [(fd, some (format_d (hint_duration data)), ret)] := by
  rcases ho with ⟨hfd, rfl⟩ | ⟨hfd, n, d, h0, rfl⟩
  · obtain ⟨_, _, _, ret, hw, _⟩ := hint_with_handle_obs st hint data buf w hh hfd
    exact ⟨ret, hw⟩
  · obtain ⟨hok, hfail⟩ := hint_open_succeeds st hint data buf w hh hfd n d h0
    rcases h1 : peek w 1 with ⟨m, d2⟩ | e
    · rw [hok m d2 h1]
      exact ⟨m, by simp [written, List.filterMap_append]⟩
    · rw [hfail e h1]
      exact ⟨-1, by simp [written, List.filterMap_append]⟩

/-- Every `write` of `p760_power_hint` carries the text of the duration. -/
theorem hint_written_any (st : State) (hint : power_hint_t) (data : Nat)
    (buf : List Nat) (w : World) :
    ∃ l : List (Int × Option (List Nat) × Int),
      written (p760_power_hint st hint data buf w).2.trace = written w.trace ++ l ∧
      ∀ x ∈ l, x.2.1 = some (format_d (hint_duration data)) := by
  by_cases hh : is_boost_hint hint
  · by_cases hfd : 0 ≤ st.boostpulse_fd
    · obtain ⟨ret, h⟩ := hint_written_of_openable st hint data buf w hh _ (Or.inl ⟨hfd, rfl⟩)
      exact ⟨_, h, by simp⟩
    · have hfd' : st.boostpulse_fd < 0 := by omega
      rcases h0 : peek w 0 with ⟨n, d⟩ | e
      · obtain ⟨ret, h⟩ := hint_written_of_openable st hint data buf w hh n
          (Or.inr ⟨hfd', n, d, h0, rfl⟩)
        exact ⟨_, h, by simp⟩
      · obtain ⟨_, _, _, _, _, h⟩ := hint_open_fails_obs st hint data buf w hh hfd' e h0
        exact ⟨[], by simpa using h, by simp⟩
  · rw [p760_power_hint_noop st hint data buf w hh]
    exact ⟨[], by simp, by simp⟩

theorem format_d_eq_zero (v : Int) (h : format_d v = bytes "0") : v = 0 := by
  have hb : bytes "0" = [48] := by decide
  rw [hb] at h
  simp only [format_d] at h
  split at h
  · simp at h
  · simp only [decimal_digits] at h
    split at h
    · simp at h; omega
    · rename_i h10
      have hne : decimal_digits v.natAbs (v.natAbs / 10) ≠ [] := by
        obtain ⟨m, hm⟩ : ∃ m, v.natAbs = m + 1 := ⟨v.natAbs - 1, by omega⟩
        rw [hm]
        exact decimal_digits_ne_nil m _
      have hlen := congrArg List.length h
      simp at hlen
      exact absurd hlen hne

theorem hint_duration_ne_zero (data : Nat) (h : data < 2 ^ 32) : hint_duration data ≠ 0 := by
  simp only [hint_duration]
  split
  · rename_i h0
    exact int_of_ptr_ne_zero data h0 h
  · omega

/-! ## Lemmas on the saved frequency -/

/-- The entry point `powerHint` changes neither array. -/
theorem hint_arrays (st : State) (hint : power_hint_t) (data : Nat) (buf : List Nat)
    (w : World) :
    (p760_power_hint st hint data buf w).1.scaling_max_freq = st.scaling_max_freq ∧
    (p760_power_hint st hint data buf w).1.screen_off_max_freq = st.screen_off_max_freq := by
  by_cases hh : is_boost_hint hint
  · by_cases hfd : 0 ≤ st.boostpulse_fd
    · rw [(hint_with_handle_obs st hint data buf w hh hfd).1]
      exact ⟨rfl, rfl⟩
    · have hfd' : st.boostpulse_fd < 0 := by omega
      rcases h0 : peek w 0 with ⟨n, d⟩ | e
      · obtain ⟨hok, hfail⟩ := hint_open_succeeds st hint data buf w hh hfd' n d h0
        rcases h1 : peek w 1 with ⟨m, d2⟩ | e
        · rw [hok m d2 h1]; exact ⟨rfl, rfl⟩
        · rw [hfail e h1]; exact ⟨rfl, rfl⟩
      · rw [hint_open_fails st hint data buf w hh hfd' e h0]
        exact ⟨rfl, rfl⟩
  · rw [p760_power_hint_noop st hint data buf w hh]
    exact ⟨rfl, rfl⟩

/-- No call modifies `screen_off_max_freq`. -/
theorem run_screen_off (calls : List Call) :
    ∀ (st : State) (w : World),
      (run (st, w) calls).1.screen_off_max_freq = st.screen_off_max_freq := by
  induction calls with
  | nil => intro st w; rfl
  | cons c cs ih =>
    intro st w
    rw [run_cons, ih]
    cases c with
    | init => rfl
    | setInteractive on_ buf => exact (set_interactive_fields st on_ buf w).2.2
    | powerHint hint data buf => exact (hint_arrays st hint data buf w).2

theorem reachable_screen_off (st : State) (h : Reachable st) :
    st.screen_off_max_freq = char_array MAX_BUF_SZ "600000" := by
  obtain ⟨script, calls, rfl⟩ := h
  rw [run_screen_off]
  rfl

/-- The read of `setInteractive(0)` fails when the `open` fails, and when the `read`
fails with an error other than `EINTR` after any number of interrupted attempts. -/
theorem sysfs_read_fails (path : String) (buf : List Nat) (size : Nat) (w : World)
    (hfail : (∃ e rest, w.script = Resp.fail e :: rest) ∨
      (∃ fd d k e rest, w.script
          = Resp.ok fd d :: (List.replicate k (Resp.fail EINTR) ++ Resp.fail e :: rest) ∧
        e ≠ EINTR)) :
    (sysfs_read path buf size w).1 = -1 := by
  rcases hfail with ⟨e, rest, h⟩ | ⟨fd, d, k, e, rest, h, he⟩
  · rcases w with ⟨script, errno, trace⟩
    simp only at h
    subst h
    simp [sysfs_read, sys_open, next_resp]
  · rcases w with ⟨script, errno, trace⟩
    simp only at h
    subst h
    have := (read_loop_fail fd size e rest he k buf
      { script := List.replicate k (Resp.fail EINTR) ++ Resp.fail e :: rest, errno := errno,
        trace := trace ++ [Event.sys_open path OpenFlag.O_RDONLY fd] } rfl).1
    simp [sysfs_read, sys_open, next_resp, emit]
    exact this

/-- The read of `setInteractive(0)` succeeds when the `open` succeeds and, after any
number of interrupted attempts, the `read` delivers `v`: the count is the length
of `v` (at most `size`) and the front of the buffer holds `v`. -/
theorem sysfs_read_succeeds (path : String) (buf : List Nat) (size : Nat) (w : World)
    (fd x k : Nat) (d v : List Nat) (rest : List Resp)
    (h : w.script = Resp.ok fd d :: (List.replicate k (Resp.fail EINTR) ++ Resp.ok x v :: rest)) :
    (sysfs_read path buf size w).1 = ((v.take size).length : Int) ∧
    (sysfs_read path buf size w).2.1 = v.take size ++ buf.drop (v.take size).length ∧
    (sysfs_read path buf size w).2.2.script = rest := by
  rcases w with ⟨script, errno, trace⟩
  simp only at h
  subst h
  have := read_loop_ok fd size x v rest k buf
    { script := List.replicate k (Resp.fail EINTR) ++ Resp.ok x v :: rest, errno := errno,
      trace := trace ++ [Event.sys_open path OpenFlag.O_RDONLY fd] } rfl
  simp [sysfs_read, sys_open, next_resp, emit, sys_close] at this ⊢
  exact this

/-- The first `write` of a screen-on transition, when its `open` succeeds, carries
the saved value. -/
theorem set_interactive_on_written (st : State) (on_ : Int) (buf : List Nat) (w : World)
    (h : on_ ≠ 0) (fd : Nat) (d : List Nat) (h0 : peek w 0 = Resp.ok fd d) :
    ∃ (ret : Int) (more : List (Int × Option (List Nat) × Int)),
      written (p760_power_set_interactive st on_ buf w).2.trace
        = written w.trace ++ ((fd : Int), c_str st.scaling_max_freq, ret) :: more := by
  rw [set_interactive_on st on_ buf w h]
  obtain ⟨l, hl, _, _⟩ := sysfs_write_written TIMER_RATE_PATH (lit TIMER_RATE_SCREEN_ON)
    (sysfs_write SCALINGMAXFREQ_PATH st.scaling_max_freq w)
  rcases h1 : peek w 1 with ⟨n, d2⟩ | e
  · refine ⟨n, l, ?_⟩
    rw [hl, sysfs_write_write_ok _ _ w fd n d d2 h0 h1]
    simp [written, List.filterMap_append]
  · refine ⟨-1, l, ?_⟩
    rw [hl, sysfs_write_write_fail _ _ w fd e d h0 h1]
    simp [written, List.filterMap_append]

theorem take_append_nul (v tail : List Nat) (n : Nat) (h : v.length < n) :
    (v ++ 0 :: tail).take n = v ++ 0 :: tail.take (n - v.length - 1) := by
  rw [List.take_append_eq_append_take, List.take_of_length_le (by omega)]
  congr 1
  obtain ⟨m, hm⟩ : ∃ m, n - v.length = m + 1 := ⟨n - v.length - 1, by omega⟩
  rw [hm]
  simp

/-- The save and restore of `setInteractive` is a round trip when the byte of the
local array that follows the bytes read is NUL: the saved array then holds the value
read as a C string, and the screen-on transition attempts the write of that value. -/
theorem save_restore_of_nul (st : State) (buf : List Nat) (w : World)
    (fd x k : Nat) (d v tail : List Nat) (rest : List Resp)
    (hs : w.script = Resp.ok fd d :: (List.replicate k (Resp.fail EINTR) ++ Resp.ok x v :: rest))
    (hv : v.length < MAX_BUF_SZ) (hnz : ∀ b ∈ v, b ≠ 0)
    (hbuf : buf.drop v.length = 0 :: tail) :
    c_str (p760_power_set_interactive st 0 buf w).1.scaling_max_freq = some v ∧
    ∀ (on_ : Int) (buf2 : List Nat), on_ ≠ 0 →
      attempted_writes (p760_power_set_interactive
          (p760_power_set_interactive st 0 buf w).1 on_ buf2
          (p760_power_set_interactive st 0 buf w).2).2.trace
        = attempted_writes (p760_power_set_interactive st 0 buf w).2.trace ++
          [(SCALINGMAXFREQ_PATH, some v), (TIMER_RATE_PATH, some (bytes "20000"))] := by
  obtain ⟨r1, r2, _⟩ := sysfs_read_succeeds SCALINGMAXFREQ_PATH buf MAX_BUF_SZ w fd x k d v rest hs
  have hv' : v.take MAX_BUF_SZ = v := List.take_of_length_le (by omega)
  rw [hv'] at r1 r2
  have hne : (sysfs_read SCALINGMAXFREQ_PATH buf MAX_BUF_SZ w).1 ≠ -1 := by
    rw [r1]; omega
  have hsaved : c_str (p760_power_set_interactive st 0 buf w).1.scaling_max_freq = some v := by
    rw [set_interactive_off_ok st buf w hne]
    simp only [memcpy, r2, hbuf]
    rw [take_append_nul v tail MAX_BUF_SZ hv, List.append_assoc, List.cons_append]
    exact c_str_terminated v _ hnz
  refine ⟨hsaved, ?_⟩
  intro on_ buf2 hon
  rw [set_interactive_attempted]
  simp [hon, hsaved]

/-! ## The system calls of `sysfs_write` and of `p760_power_set_interactive` -/

/-- The system calls of `sysfs_write`: one `open` of the path for writing, and, exactly
when that `open` returns a descriptor, one `write` of the value on that descriptor
followed by its `close`. -/
theorem sysfs_write_io (path : String) (s : List Nat) (w : World) :
    ∃ r n : Int,
      opened (sysfs_write path s w).trace
        = opened w.trace ++ [(path, OpenFlag.O_WRONLY, r)] ∧
      written (sysfs_write path s w).trace
        = written w.trace ++ (if 0 ≤ r then [(r, c_str s, n)] else []) ∧
      closed (sysfs_write path s w).trace
        = closed w.trace ++ (if 0 ≤ r then [r] else []) := by
  rcases h0 : peek w 0 with ⟨fd, d⟩ | e
  · rcases h1 : peek w 1 with ⟨n, d2⟩ | e
    · rw [sysfs_write_write_ok path s w fd n d d2 h0 h1]
      exact ⟨fd, n, by simp [opened, List.filterMap_append],
        by simp [written, List.filterMap_append],
        by simp [closed, List.filterMap_append]⟩
    · rw [sysfs_write_write_fail path s w fd e d h0 h1]
      exact ⟨fd, -1, by simp [opened, List.filterMap_append],
        by simp [written, List.filterMap_append],
        by simp [closed, List.filterMap_append]⟩
  · rw [sysfs_write_open_fail path s w e h0]
    exact ⟨-1, 0, by simp [opened, List.filterMap_append],
      by simp [written, List.filterMap_append],
      by simp [closed, List.filterMap_append]⟩

/-- The `open` and `write` calls of the read in `setInteractive(0)`: one `open` of the
path for reading, no `write`. -/
theorem sysfs_read_io (path : String) (buf : List Nat) (size : Nat) (w : World) :
    ∃ r0 : Int,
      opened (sysfs_read path buf size w).2.2.trace
        = opened w.trace ++ [(path, OpenFlag.O_RDONLY, r0)] ∧
      written (sysfs_read path buf size w).2.2.trace = written w.trace := by
  obtain ⟨ret, evs, ht, _, _, ho, hw⟩ := sysfs_read_trace path buf size w
  refine ⟨ret, ?_, ?_⟩
  · rw [ht, opened_append]
    simp [opened] at ho ⊢
    exact ho
  · rw [ht, written_append]
    simp [written] at hw ⊢
    exact hw

/-- The `open` and `write` calls of two calls of `sysfs_write` in a row. -/
theorem sysfs_write_twice_io (p1 p2 : String) (s1 s2 : List Nat) (w : World) :
    ∃ r1 r2 n1 n2 : Int,
      opened (sysfs_write p2 s2 (sysfs_write p1 s1 w)).trace
        = opened w.trace ++ [(p1, OpenFlag.O_WRONLY, r1), (p2, OpenFlag.O_WRONLY, r2)] ∧
      written (sysfs_write p2 s2 (sysfs_write p1 s1 w)).trace
        = written w.trace ++ (if 0 ≤ r1 then [(r1, c_str s1, n1)] else [])
            ++ (if 0 ≤ r2 then [(r2, c_str s2, n2)] else []) := by
  obtain ⟨r1, n1, o1, w1, _⟩ := sysfs_write_io p1 s1 w
  obtain ⟨r2, n2, o2, w2, _⟩ := sysfs_write_io p2 s2 (sysfs_write p1 s1 w)
  exact ⟨r1, r2, n1, n2, by rw [o2, o1]; simp, by rw [w2, w1]⟩

/-- The `open` and `write` calls of `setInteractive`, for every state and every answer
of the kernel: with `on == 0` the scaling_max_freq path is first opened for reading;
then, in both cases, the scaling_max_freq path and the timer_rate path are opened for
writing, in this order, and each `open` that returns a descriptor is followed by one
`write` of the value on that descriptor. -/
theorem set_interactive_io (st : State) (on_ : Int) (buf : List Nat) (w : World) :
    ∃ r0 r1 r2 n1 n2 : Int,
      opened (p760_power_set_interactive st on_ buf w).2.trace
        = opened w.trace
            ++ (if on_ = 0 then [(SCALINGMAXFREQ_PATH, OpenFlag.O_RDONLY, r0)] else [])
            ++ [(SCALINGMAXFREQ_PATH, OpenFlag.O_WRONLY, r1),
                (TIMER_RATE_PATH, OpenFlag.O_WRONLY, r2)] ∧
      written (p760_power_set_interactive st on_ buf w).2.trace
        = written w.trace
            ++ (if 0 ≤ r1 then
                  [(r1, (if on_ = 0 then c_str st.screen_off_max_freq
                         else c_str st.scaling_max_freq), n1)]
                else [])
            ++ (if 0 ≤ r2 then
                  [(r2, (if on_ = 0 then some (bytes "500000") else some (bytes "20000")), n2)]
                else []) := by
  have hon : c_str (lit TIMER_RATE_SCREEN_ON) = some (bytes "20000") := by decide
  have hoff : c_str (lit TIMER_RATE_SCREEN_OFF) = some (bytes "500000") := by decide
  by_cases h : on_ = 0
  · subst h
    obtain ⟨r0, o0, w0⟩ := sysfs_read_io SCALINGMAXFREQ_PATH buf MAX_BUF_SZ w
    obtain ⟨r1, r2, n1, n2, o, wr⟩ := sysfs_write_twice_io SCALINGMAXFREQ_PATH TIMER_RATE_PATH
      st.screen_off_max_freq (lit TIMER_RATE_SCREEN_OFF)
      (sysfs_read SCALINGMAXFREQ_PATH buf MAX_BUF_SZ w).2.2
    refine ⟨r0, r1, r2, n1, n2, ?_, ?_⟩
    · by_cases hr : (sysfs_read SCALINGMAXFREQ_PATH buf MAX_BUF_SZ w).1 = -1
      · rw [set_interactive_off_fail st buf w hr]
        simp only [o, o0, if_true, List.append_assoc]
      · rw [set_interactive_off_ok st buf w hr]
        simp only [o, o0, if_true, List.append_assoc]
    · by_cases hr : (sysfs_read SCALINGMAXFREQ_PATH buf MAX_BUF_SZ w).1 = -1
      · rw [set_interactive_off_fail st buf w hr]
        simp only [wr, w0, hoff, if_true]
      · rw [set_interactive_off_ok st buf w hr]
        simp only [wr, w0, hoff, if_true]
  · obtain ⟨r1, r2, n1, n2, o, wr⟩ := sysfs_write_twice_io SCALINGMAXFREQ_PATH TIMER_RATE_PATH
      st.scaling_max_freq (lit TIMER_RATE_SCREEN_ON) w
    refine ⟨0, r1, r2, n1, n2, ?_, ?_⟩
    · rw [set_interactive_on st on_ buf w h]
      simp only [o, h, if_false, List.append_nil]
    · rw [set_interactive_on st on_ buf w h]
      simp only [wr, hon, h, if_false]

/-! ## The properties of the specification -/

/-- C8, counterexample: `sysfs_write` of `"20000"` with a successful open and a
`write` that reports 2 of the 5 bytes (a partial write) emits no diagnostic record. -/
theorem sysfs_write_partial_write_is_silent :
    c_str (lit "20000") = some (bytes "20000") ∧
    ((2 : Nat) : Int) < ((bytes "20000").length : Int) ∧
    written (sysfs_write TIMER_RATE_PATH (lit "20000")
      (initial_world [Resp.ok 3 [], Resp.ok 2 []])).trace = [(3, some (bytes "20000"), 2)] ∧
    diagnostics (sysfs_write TIMER_RATE_PATH (lit "20000")
      (initial_world [Resp.ok 3 [], Resp.ok 2 []])).trace = [] := by
  decide

/-- C8, as amended: for every path and value, `sysfs_write` emits exactly one
diagnostic record, naming the path, when the open fails or when the write fails
(returns a negative count), and it does not retry: one `open`, at most one `write`.
When the open succeeds and the write returns a count, whether all bytes or fewer,
it emits no diagnostic record. -/
theorem sysfs_write_diagnostics (path : String) (s : List Nat) (w : World) :
    (∀ e, peek w 0 = Resp.fail e →
      diagnostics (sysfs_write path s w).trace
        = diagnostics w.trace ++ [("Error opening %s: %s\n", path, e)] ∧
      opened (sysfs_write path s w).trace
        = opened w.trace ++ [(path, OpenFlag.O_WRONLY, -1)] ∧
      written (sysfs_write path s w).trace = written w.trace) ∧
    (∀ fd d e, peek w 0 = Resp.ok fd d → peek w 1 = Resp.fail e →
      diagnostics (sysfs_write path s w).trace
        = diagnostics w.trace ++ [("Error writing to %s: %s\n", path, e)] ∧
      opened (sysfs_write path s w).trace
        = opened w.trace ++ [(path, OpenFlag.O_WRONLY, (fd : Int))] ∧
      written (sysfs_write path s w).trace
        = written w.trace ++ [((fd : Int), c_str s, -1)]) ∧
    (∀ fd d n d2, peek w 0 = Resp.ok fd d → peek w 1 = Resp.ok n d2 →
      diagnostics (sysfs_write path s w).trace = diagnostics w.trace ∧
      opened (sysfs_write path s w).trace
        = opened w.trace ++ [(path, OpenFlag.O_WRONLY, (fd : Int))] ∧
      written (sysfs_write path s w).trace
        = written w.trace ++ [((fd : Int), c_str s, (n : Int))]) := by
  refine ⟨?_, ?_, ?_⟩
  · intro e h0
    rw [sysfs_write_open_fail path s w e h0]
    simp [diagnostics, opened, written, List.filterMap_append]
  · intro fd d e h0 h1
    rw [sysfs_write_write_fail path s w fd e d h0 h1]
    simp [diagnostics, opened, written, List.filterMap_append]
  · intro fd d n d2 h0 h1
    rw [sysfs_write_write_ok path s w fd n d d2 h0 h1]
    simp [diagnostics, opened, written, List.filterMap_append]

/-- C8, witness: a failed open, a failed write and a complete write of `"20000"` to
the timer_rate path. -/
theorem sysfs_write_diagnostics_witness :
    diagnostics (sysfs_write TIMER_RATE_PATH (lit "20000")
        (initial_world [Resp.fail 13])).trace
      = [("Error opening %s: %s\n", TIMER_RATE_PATH, 13)] ∧
    diagnostics (sysfs_write TIMER_RATE_PATH (lit "20000")
        (initial_world [Resp.ok 3 [], Resp.fail 28])).trace
      = [("Error writing to %s: %s\n", TIMER_RATE_PATH, 28)] ∧
    diagnostics (sysfs_write TIMER_RATE_PATH (lit "20000")
        (initial_world [Resp.ok 3 [], Resp.ok 5 []])).trace = [] :=
  ⟨((sysfs_write_diagnostics TIMER_RATE_PATH (lit "20000")
      (initial_world [Resp.fail 13])).1 13 rfl).1,
   ((sysfs_write_diagnostics TIMER_RATE_PATH (lit "20000")
      (initial_world [Resp.ok 3 [], Resp.fail 28])).2.1 3 [] 28 rfl rfl).1,
   ((sysfs_write_diagnostics TIMER_RATE_PATH (lit "20000")
      (initial_world [Resp.ok 3 [], Resp.ok 5 []])).2.2 3 [] 5 [] rfl rfl).1⟩

/-- C5: for every state, payload and local buffer, a hint other than INTERACTION and
CPU_BOOST (VSYNC and every other code) leaves the module state and the world as they
are: no `open`, no `write`, no diagnostic record, no change of any field. -/
theorem p760_power_hint_other_is_noop (st : State) (hint : power_hint_t) (data : Nat)
    (buf : List Nat) (w : World)
    (h1 : hint ≠ power_hint_t.POWER_HINT_INTERACTION)
    (h2 : hint ≠ power_hint_t.POWER_HINT_CPU_BOOST) :
    p760_power_hint st hint data buf w = (st, w) := by
  cases hint with
  | POWER_HINT_VSYNC => rfl
  | POWER_HINT_INTERACTION => exact absurd rfl h1
  | POWER_HINT_CPU_BOOST => exact absurd rfl h2
  | other code => rfl

/-- C5, witness: VSYNC and an unknown code on the load-time state. -/
theorem p760_power_hint_other_is_noop_witness :
    p760_power_hint initial_state power_hint_t.POWER_HINT_VSYNC 50 [] (initial_world [Resp.ok 3 []])
      = (initial_state, initial_world [Resp.ok 3 []]) ∧
    p760_power_hint initial_state (power_hint_t.other 77) 0 [] (initial_world [])
      = (initial_state, initial_world []) :=
  ⟨p760_power_hint_other_is_noop initial_state power_hint_t.POWER_HINT_VSYNC 50 []
      (initial_world [Resp.ok 3 []]) (by decide) (by decide),
   p760_power_hint_other_is_noop initial_state (power_hint_t.other 77) 0 []
      (initial_world []) (by decide) (by decide)⟩

/-- C4: when the boost attribute can be opened (with handle `fd`), a hint INTERACTION
or CPU_BOOST makes exactly one `write` on the handle; with a null payload the bytes
are `"1"`; with a payload that is present the bytes are the decimal text of the
payload read as a signed 32-bit integer (digits without padding, a leading `-` for a
negative value, no terminator or newline); so for every integer `n` other than zero
of the 32-bit range, passed as payload, the bytes are the decimal text of `n`. -/
theorem boost_pulse_payload (st : State) (hint : power_hint_t) (data : Nat)
    (buf : List Nat) (w : World) (fd : Int)
    (hh : is_boost_hint hint) (ho : boost_openable st w fd) :
    (data = NULL → ∃ ret : Int, written (p760_power_hint st hint data buf w).2.trace
      = written w.trace ++ [(fd, some (bytes "1"), ret)]) ∧
    (data ≠ NULL → ∃ ret : Int, written (p760_power_hint st hint data buf w).2.trace
      = written w.trace ++ [(fd, some (bytes (toString (int_of_ptr data))), ret)]) ∧
    (∀ n : Int, -2 ^ 31 ≤ n → n < 2 ^ 31 → n ≠ 0 → data = ptr_of_int n →
      ∃ ret : Int, written (p760_power_hint st hint data buf w).2.trace
        = written w.trace ++ [(fd, some (bytes (toString n)), ret)]) := by
  obtain ⟨ret, h⟩ := hint_written_of_openable st hint data buf w hh fd ho
  have h1 : format_d 1 = bytes "1" := by decide
  refine ⟨?_, ?_, ?_⟩
  · intro hd
    refine ⟨ret, ?_⟩
    rw [h]
    simp [hint_duration, hd, h1]
  · intro hd
    refine ⟨ret, ?_⟩
    rw [h]
    simp [hint_duration, hd, format_d_eq_toString]
  · intro n hlo hhi hn hd
    have hne : data ≠ NULL := by
      rw [hd]
      simp only [ptr_of_int, NULL]
      omega
    refine ⟨ret, ?_⟩
    rw [h]
    have hdur : hint_duration data = n := by
      simp only [hint_duration, hne, ne_eq, not_false_eq_true, if_true]
      rw [hd, int_of_ptr_of_int n hlo hhi]
    rw [hdur, format_d_eq_toString]

/-- C4, witness: `powerHint(INTERACTION, null)` and `powerHint(CPU_BOOST, 50)` on the
load-time state, the `open` returning the descriptor 7. -/
theorem boost_pulse_payload_witness :
    (∃ ret : Int, written (p760_power_hint initial_state
        power_hint_t.POWER_HINT_INTERACTION NULL [] (initial_world [Resp.ok 7 [], Resp.ok 1 []])).2.trace
      = written (initial_world [Resp.ok 7 [], Resp.ok 1 []]).trace
          ++ [(7, some (bytes "1"), ret)]) ∧
    (∃ ret : Int, written (p760_power_hint initial_state
        power_hint_t.POWER_HINT_CPU_BOOST (ptr_of_int 50) [] (initial_world [Resp.ok 7 [], Resp.ok 2 []])).2.trace
      = written (initial_world [Resp.ok 7 [], Resp.ok 2 []]).trace
          ++ [(7, some (bytes (toString (50 : Int))), ret)]) ∧
    bytes (toString (50 : Int)) = bytes "50" :=
  ⟨(boost_pulse_payload initial_state power_hint_t.POWER_HINT_INTERACTION NULL []
      (initial_world [Resp.ok 7 [], Resp.ok 1 []]) 7 (Or.inl rfl)
      (Or.inr ⟨by decide, 7, [], rfl, rfl⟩)).1 rfl,
   (boost_pulse_payload initial_state power_hint_t.POWER_HINT_CPU_BOOST (ptr_of_int 50) []
      (initial_world [Resp.ok 7 [], Resp.ok 2 []]) 7 (Or.inr rfl)
      (Or.inr ⟨by decide, 7, [], rfl, rfl⟩)).2.2 50 (by decide) (by decide) (by decide) rfl,
   by decide⟩

/-- C10: the integer 0 passed as payload is the null pointer, so for a hint
INTERACTION or CPU_BOOST the call with payload 0 is the call with a null payload (same
resulting state, same trace) and, when the boost attribute can be opened, writes the
bytes `"1"`; and for no payload (a 32-bit word) does a `write` of `p760_power_hint`
carry the bytes `"0"`. -/
theorem zero_payload_is_null_payload (st : State) (hint : power_hint_t) (buf : List Nat)
    (w : World) (hh : is_boost_hint hint) :
    ptr_of_int 0 = NULL ∧
    p760_power_hint st hint (ptr_of_int 0) buf w = p760_power_hint st hint NULL buf w ∧
    (∀ fd, boost_openable st w fd →
      ∃ ret : Int, written (p760_power_hint st hint (ptr_of_int 0) buf w).2.trace
        = written w.trace ++ [(fd, some (bytes "1"), ret)]) ∧
    (∀ data, data < 2 ^ 32 →
      ∃ l : List (Int × Option (List Nat) × Int),
        written (p760_power_hint st hint data buf w).2.trace = written w.trace ++ l ∧
        ∀ x ∈ l, x.2.1 ≠ some (bytes "0")) := by
  have hz : ptr_of_int 0 = NULL := by decide
  have h1 : format_d 1 = bytes "1" := by decide
  refine ⟨hz, by rw [hz], ?_, ?_⟩
  · intro fd ho
    obtain ⟨ret, h⟩ := hint_written_of_openable st hint (ptr_of_int 0) buf w hh fd ho
    refine ⟨ret, ?_⟩
    rw [h, hz]
    simp [hint_duration, h1]
  · intro data hd
    obtain ⟨l, hl, hp⟩ := hint_written_any st hint data buf w
    refine ⟨l, hl, ?_⟩
    intro x hx hx0
    rw [hp x hx] at hx0
    exact hint_duration_ne_zero data hd (format_d_eq_zero _ (Option.some.inj hx0))

/-- C10, witness: `powerHint(CPU_BOOST, 0)` on the load-time state, the `open`
returning the descriptor 7. -/
theorem zero_payload_is_null_payload_witness :
    is_boost_hint power_hint_t.POWER_HINT_CPU_BOOST ∧
    ∃ ret : Int, written (p760_power_hint initial_state power_hint_t.POWER_HINT_CPU_BOOST
        (ptr_of_int 0) [] (initial_world [Resp.ok 7 [], Resp.ok 1 []])).2.trace
      = written (initial_world [Resp.ok 7 [], Resp.ok 1 []]).trace
          ++ [(7, some (bytes "1"), ret)] :=
  ⟨Or.inr rfl,
   (zero_payload_is_null_payload initial_state power_hint_t.POWER_HINT_CPU_BOOST []
      (initial_world [Resp.ok 7 [], Resp.ok 1 []]) (Or.inr rfl)).2.2.1 7
      (Or.inr ⟨by decide, 7, [], rfl, rfl⟩)⟩

/-- C6: in a run of `n >= 1` hints INTERACTION / CPU_BOOST from the load-time state in
which every `open` of the boost attribute fails, after each number `k` of calls from 1
to `n`: exactly one diagnostic record has been emitted (the one of the first call,
with the `errno` of the first `open`), every one of the `k` calls has attempted the
`open`, nothing has been written, `boostpulse_warned` is 1 and no handle is held. -/
theorem boost_open_failure_warns_once (script : List Resp) (calls : List Call) (k : Nat)
    (hk1 : 1 ≤ k) (hkn : k ≤ calls.length)
    (hcalls : ∀ c ∈ calls, is_boost_call c)
    (hfail : ∀ i, i < calls.length → ∃ e, peek (initial_world script) i = Resp.fail e) :
    ∃ e0, peek (initial_world script) 0 = Resp.fail e0 ∧
      diagnostics (run (initial_state, initial_world script) (calls.take k)).2.trace
        = [("Error opening %s: %s\n", BOOSTPULSE_PATH, e0)] ∧
      diagnostics (run (initial_state, initial_world script) calls).2.trace
        = [("Error opening %s: %s\n", BOOSTPULSE_PATH, e0)] ∧
      opened (run (initial_state, initial_world script) (calls.take k)).2.trace
        = List.replicate k (BOOSTPULSE_PATH, OpenFlag.O_WRONLY, -1) ∧
      written (run (initial_state, initial_world script) (calls.take k)).2.trace = [] ∧
      (run (initial_state, initial_world script) (calls.take k)).1.boostpulse_warned = 1 ∧
      (run (initial_state, initial_world script) (calls.take k)).1.boostpulse_fd = -1 := by
  have key : ∀ l : List Call, l ≠ [] → (∀ c ∈ l, is_boost_call c) →
      (∀ i, i < l.length → ∃ e, peek (initial_world script) i = Resp.fail e) →
      ∃ e0, peek (initial_world script) 0 = Resp.fail e0 ∧
        diagnostics (run (initial_state, initial_world script) l).2.trace
          = [("Error opening %s: %s\n", BOOSTPULSE_PATH, e0)] ∧
        opened (run (initial_state, initial_world script) l).2.trace
          = List.replicate l.length (BOOSTPULSE_PATH, OpenFlag.O_WRONLY, -1) ∧
        written (run (initial_state, initial_world script) l).2.trace = [] ∧
        (run (initial_state, initial_world script) l).1.boostpulse_warned = 1 ∧
        (run (initial_state, initial_world script) l).1.boostpulse_fd = -1 := by
    intro l hl hc hf
    rcases l with _ | ⟨c, cs⟩
    · exact absurd rfl hl
    · obtain ⟨e0, h0, r1, r2, r3, r4, r5⟩ := run_open_failures c cs initial_state
        (initial_world script) (by decide) rfl hc hf
      exact ⟨e0, h0, by simpa [initial_world, diagnostics] using r3,
        by simpa [initial_world, opened] using r4,
        by simpa [initial_world, written] using r5, r2, r1⟩
  have hlen : (calls.take k).length = k := by simp [hkn]
  have hne : calls.take k ≠ [] := by
    intro h
    rw [h] at hlen
    simp at hlen
    omega
  have hne2 : calls ≠ [] := by
    intro h
    rw [h] at hkn
    simp at hkn
    omega
  obtain ⟨e0, h0, d1, o1, w1, s1, f1⟩ := key (calls.take k) hne
    (fun c hc => hcalls c (List.mem_of_mem_take hc))
    (fun i hi => hfail i (by rw [hlen] at hi; omega))
  obtain ⟨e1, h1, d2, _, _, _, _⟩ := key calls hne2 hcalls hfail
  have he : e1 = e0 := by
    rw [h0] at h1
    injection h1 with h1
    exact h1.symm
  subst he
  exact ⟨e1, h0, d1, d2, by rw [o1, hlen], w1, s1, f1⟩

/-- C6, witness: three hints on the load-time state, every `open` failing. -/
theorem boost_open_failure_warns_once_witness :
    ∃ e0, peek (initial_world [Resp.fail 2, Resp.fail 13, Resp.fail 2]) 0 = Resp.fail e0 ∧
      diagnostics (run (initial_state, initial_world [Resp.fail 2, Resp.fail 13, Resp.fail 2])
          ([Call.powerHint power_hint_t.POWER_HINT_INTERACTION 0 [],
            Call.powerHint power_hint_t.POWER_HINT_CPU_BOOST 50 [],
            Call.powerHint power_hint_t.POWER_HINT_INTERACTION 0 []].take 2)).2.trace
        = [("Error opening %s: %s\n", BOOSTPULSE_PATH, e0)] ∧
      diagnostics (run (initial_state, initial_world [Resp.fail 2, Resp.fail 13, Resp.fail 2])
          [Call.powerHint power_hint_t.POWER_HINT_INTERACTION 0 [],
           Call.powerHint power_hint_t.POWER_HINT_CPU_BOOST 50 [],
           Call.powerHint power_hint_t.POWER_HINT_INTERACTION 0 []]).2.trace
        = [("Error opening %s: %s\n", BOOSTPULSE_PATH, e0)] ∧
      opened (run (initial_state, initial_world [Resp.fail 2, Resp.fail 13, Resp.fail 2])
          ([Call.powerHint power_hint_t.POWER_HINT_INTERACTION 0 [],
            Call.powerHint power_hint_t.POWER_HINT_CPU_BOOST 50 [],
            Call.powerHint power_hint_t.POWER_HINT_INTERACTION 0 []].take 2)).2.trace
        = List.replicate 2 (BOOSTPULSE_PATH, OpenFlag.O_WRONLY, -1) ∧
      written (run (initial_state, initial_world [Resp.fail 2, Resp.fail 13, Resp.fail 2])
          ([Call.powerHint power_hint_t.POWER_HINT_INTERACTION 0 [],
            Call.powerHint power_hint_t.POWER_HINT_CPU_BOOST 50 [],
            Call.powerHint power_hint_t.POWER_HINT_INTERACTION 0 []].take 2)).2.trace = [] ∧
      (run (initial_state, initial_world [Resp.fail 2, Resp.fail 13, Resp.fail 2])
          ([Call.powerHint power_hint_t.POWER_HINT_INTERACTION 0 [],
            Call.powerHint power_hint_t.POWER_HINT_CPU_BOOST 50 [],
            Call.powerHint power_hint_t.POWER_HINT_INTERACTION 0 []].take 2)).1.boostpulse_warned
        = 1 ∧
      (run (initial_state, initial_world [Resp.fail 2, Resp.fail 13, Resp.fail 2])
          ([Call.powerHint power_hint_t.POWER_HINT_INTERACTION 0 [],
            Call.powerHint power_hint_t.POWER_HINT_CPU_BOOST 50 [],
            Call.powerHint power_hint_t.POWER_HINT_INTERACTION 0 []].take 2)).1.boostpulse_fd
        = -1 :=
  boost_open_failure_warns_once [Resp.fail 2, Resp.fail 13, Resp.fail 2]
    [Call.powerHint power_hint_t.POWER_HINT_INTERACTION 0 [],
     Call.powerHint power_hint_t.POWER_HINT_CPU_BOOST 50 [],
     Call.powerHint power_hint_t.POWER_HINT_INTERACTION 0 []] 2 (by decide) (by decide)
    (by
      intro c hc
      simp only [List.mem_cons, List.mem_singleton, List.not_mem_nil, or_false] at hc
      rcases hc with rfl | rfl | rfl
      · exact ⟨_, _, _, Or.inl rfl, rfl⟩
      · exact ⟨_, _, _, Or.inr rfl, rfl⟩
      · exact ⟨_, _, _, Or.inl rfl, rfl⟩)
    (by
      intro i hi
      simp only [List.length_cons, List.length_nil] at hi
      interval_cases i
      · exact ⟨2, rfl⟩
      · exact ⟨13, rfl⟩
      · exact ⟨2, rfl⟩)

/-- C7: in every run of whole calls from the load-time state, the handle and the trace
agree: the module holds a handle exactly when an `open` of the boost attribute has
succeeded, the handle is the descriptor that `open` returned, and at most one `open`
of the boost attribute has succeeded.  Once a handle is held, whatever calls follow,
`boostpulse_fd` keeps it and no call opens the boost attribute again; every later
pulse makes its one `write` on that handle, without `open` or `close`, and leaves the
state as it is, also when the `write` fails (which only adds a diagnostic record). -/
theorem boost_handle_is_stable (script : List Resp) (calls more : List Call) :
    handle_invariant (run (initial_state, initial_world script) calls).1
      (run (initial_state, initial_world script) calls).2.trace ∧
    (successful_boost_opens
      (run (initial_state, initial_world script) calls).2.trace).length ≤ 1 ∧
    (0 ≤ (run (initial_state, initial_world script) calls).1.boostpulse_fd →
      (run (initial_state, initial_world script) (calls ++ more)).1.boostpulse_fd
        = (run (initial_state, initial_world script) calls).1.boostpulse_fd ∧
      boost_opens (run (initial_state, initial_world script) (calls ++ more)).2.trace
        = boost_opens (run (initial_state, initial_world script) calls).2.trace) ∧
    (∀ (st : State) (hint : power_hint_t) (data : Nat) (buf : List Nat) (w : World),
      is_boost_hint hint → 0 ≤ st.boostpulse_fd →
      (p760_power_hint st hint data buf w).1 = st ∧
      opened (p760_power_hint st hint data buf w).2.trace = opened w.trace ∧
      closed (p760_power_hint st hint data buf w).2.trace = closed w.trace ∧
      ∃ ret : Int, written (p760_power_hint st hint data buf w).2.trace
        = written w.trace ++
            [(st.boostpulse_fd, some (format_d (hint_duration data)), ret)] ∧
        diagnostics (p760_power_hint st hint data buf w).2.trace
          = diagnostics w.trace ++
            (if ret < 0 then [("Error writing to %s: %s\n", BOOSTPULSE_PATH,
              (p760_power_hint st hint data buf w).2.errno)] else [])) := by
  have hinv := run_handle_invariant calls initial_state (initial_world script)
    (Or.inl ⟨by decide, rfl⟩)
  refine ⟨hinv, ?_, ?_, ?_⟩
  · rcases hinv with ⟨_, h⟩ | ⟨_, h⟩ <;> simp [h]
  · intro hfd
    rw [run_append]
    exact run_keeps_handle more _ _ hfd
  · intro st hint data buf w hh hfd
    exact hint_with_handle_obs st hint data buf w hh hfd

/-- C7, witness: a pulse that opens the boost attribute (descriptor 7), then a pulse
whose `write` fails, a screen-on transition and an `init`: the handle stays 7. -/
theorem boost_handle_is_stable_witness :
    (0 : Int) ≤ (run (initial_state, initial_world [Resp.ok 7 [], Resp.ok 1 [], Resp.fail 5])
      [Call.powerHint power_hint_t.POWER_HINT_INTERACTION 0 []]).1.boostpulse_fd ∧
    (run (initial_state, initial_world [Resp.ok 7 [], Resp.ok 1 [], Resp.fail 5])
      ([Call.powerHint power_hint_t.POWER_HINT_INTERACTION 0 []] ++
       [Call.powerHint power_hint_t.POWER_HINT_CPU_BOOST 50 [], Call.setInteractive 1 [],
        Call.init])).1.boostpulse_fd
      = (run (initial_state, initial_world [Resp.ok 7 [], Resp.ok 1 [], Resp.fail 5])
          [Call.powerHint power_hint_t.POWER_HINT_INTERACTION 0 []]).1.boostpulse_fd :=
  ⟨by decide,
   ((boost_handle_is_stable [Resp.ok 7 [], Resp.ok 1 [], Resp.fail 5]
      [Call.powerHint power_hint_t.POWER_HINT_INTERACTION 0 []]
      [Call.powerHint power_hint_t.POWER_HINT_CPU_BOOST 50 [], Call.setInteractive 1 [],
       Call.init]).2.2.1 (by decide)).1⟩

/-- C1, failing input: the saved array holds `"1008000"`; the local array of
`setInteractive(0)` still holds the bytes of an earlier read, `"1008000"` and three
NUL; the read delivers the 6 bytes `"902000"`.  The call copies all 10 bytes of the
local array, so the saved array holds `"9020000"`, and the following
`setInteractive(1)` writes `"9020000"` to the scaling_max_freq attribute, not
`"902000"`. -/
theorem save_restore_keeps_stale_bytes :
    c_str initial_state.scaling_max_freq = some (bytes "1008000") ∧
    (p760_power_set_interactive initial_state 0 (char_array MAX_BUF_SZ "1008000")
      (initial_world [Resp.ok 3 [], Resp.ok 0 (bytes "902000"), Resp.ok 4 [], Resp.ok 6 [],
        Resp.ok 5 [], Resp.ok 6 [], Resp.ok 4 [], Resp.ok 7 [], Resp.ok 5 [],
        Resp.ok 5 []])).1.scaling_max_freq = char_array MAX_BUF_SZ "9020000" ∧
    c_str (p760_power_set_interactive initial_state 0 (char_array MAX_BUF_SZ "1008000")
      (initial_world [Resp.ok 3 [], Resp.ok 0 (bytes "902000"), Resp.ok 4 [], Resp.ok 6 [],
        Resp.ok 5 [], Resp.ok 6 [], Resp.ok 4 [], Resp.ok 7 [], Resp.ok 5 [],
        Resp.ok 5 []])).1.scaling_max_freq ≠ some (bytes "902000") ∧
    (run (initial_state,
      initial_world [Resp.ok 3 [], Resp.ok 0 (bytes "902000"), Resp.ok 4 [], Resp.ok 6 [],
        Resp.ok 5 [], Resp.ok 6 [], Resp.ok 4 [], Resp.ok 7 [], Resp.ok 5 [], Resp.ok 5 []])
      [Call.setInteractive 0 (char_array MAX_BUF_SZ "1008000"),
       Call.setInteractive 1 (char_array MAX_BUF_SZ "1008000")]).2.trace
      = [Event.sys_open SCALINGMAXFREQ_PATH OpenFlag.O_RDONLY 3,
         Event.sys_read 3 10 6,
         Event.sys_close 3,
         Event.call_sysfs_write SCALINGMAXFREQ_PATH (some (bytes "600000")),
         Event.sys_open SCALINGMAXFREQ_PATH OpenFlag.O_WRONLY 4,
         Event.sys_write 4 (some (bytes "600000")) 6,
         Event.sys_close 4,
         Event.call_sysfs_write TIMER_RATE_PATH (some (bytes "500000")),
         Event.sys_open TIMER_RATE_PATH OpenFlag.O_WRONLY 5,
         Event.sys_write 5 (some (bytes "500000")) 6,
         Event.sys_close 5,
         Event.call_sysfs_write SCALINGMAXFREQ_PATH (some (bytes "9020000")),
         Event.sys_open SCALINGMAXFREQ_PATH OpenFlag.O_WRONLY 4,
         Event.sys_write 4 (some (bytes "9020000")) 7,
         Event.sys_close 4,
         Event.call_sysfs_write TIMER_RATE_PATH (some (bytes "20000")),
         Event.sys_open TIMER_RATE_PATH OpenFlag.O_WRONLY 5,
         Event.sys_write 5 (some (bytes "20000")) 5,
         Event.sys_close 5] := by
  decide

/-- C2: for every module state, if the read of the scaling_max_freq attribute inside
`setInteractive(0)` fails (the `open` fails, or the `read` fails with an error other
than `EINTR`, after any number of interrupted attempts), the call leaves the whole
module state, the saved array included, unchanged; a following screen-on transition
attempts the write of the value saved before to the scaling_max_freq path, and when
its `open` succeeds the `write` carries that value; for the load-time state that value
is `"1008000"`. -/
theorem read_failure_keeps_saved (st : State) (buf : List Nat) (w : World)
    (hfail : (∃ e rest, w.script = Resp.fail e :: rest) ∨
      (∃ fd d k e rest, w.script
          = Resp.ok fd d :: (List.replicate k (Resp.fail EINTR) ++ Resp.fail e :: rest) ∧
        e ≠ EINTR)) :
    (p760_power_set_interactive st 0 buf w).1 = st ∧
    (∀ (on_ : Int) (buf2 : List Nat), on_ ≠ 0 →
      attempted_writes (p760_power_set_interactive
          (p760_power_set_interactive st 0 buf w).1 on_ buf2
          (p760_power_set_interactive st 0 buf w).2).2.trace
        = attempted_writes (p760_power_set_interactive st 0 buf w).2.trace ++
          [(SCALINGMAXFREQ_PATH, c_str st.scaling_max_freq),
           (TIMER_RATE_PATH, some (bytes "20000"))] ∧
      ∀ fd d, peek (p760_power_set_interactive st 0 buf w).2 0 = Resp.ok fd d →
        ∃ (ret : Int) (more : List (Int × Option (List Nat) × Int)),
          written (p760_power_set_interactive
              (p760_power_set_interactive st 0 buf w).1 on_ buf2
              (p760_power_set_interactive st 0 buf w).2).2.trace
            = written (p760_power_set_interactive st 0 buf w).2.trace ++
              ((fd : Int), c_str st.scaling_max_freq, ret) :: more) ∧
    c_str initial_state.scaling_max_freq = some (bytes "1008000") := by
  have hr := sysfs_read_fails SCALINGMAXFREQ_PATH buf MAX_BUF_SZ w hfail
  have hst : (p760_power_set_interactive st 0 buf w).1 = st := by
    rw [set_interactive_off_fail st buf w hr]
  refine ⟨hst, ?_, by decide⟩
  intro on_ buf2 hon
  rw [hst]
  refine ⟨?_, ?_⟩
  · rw [set_interactive_attempted]
    simp [hon]
  · intro fd d h0
    exact set_interactive_on_written st on_ buf2 _ hon fd d h0

/-- C2, witness: from the load-time state, the `open` of the read fails with
`ENOENT`; the saved array still holds `"1008000"` and the screen-on transition
attempts the write of `"1008000"`. -/
theorem read_failure_keeps_saved_witness :
    (p760_power_set_interactive initial_state 0 (lit "AAAAAAAAA")
      (initial_world [Resp.fail 2, Resp.ok 4 [], Resp.ok 6 [], Resp.ok 5 [], Resp.ok 6 [],
        Resp.ok 4 [], Resp.ok 7 []])).1 = initial_state ∧
    attempted_writes (p760_power_set_interactive
        (p760_power_set_interactive initial_state 0 (lit "AAAAAAAAA")
          (initial_world [Resp.fail 2, Resp.ok 4 [], Resp.ok 6 [], Resp.ok 5 [], Resp.ok 6 [],
            Resp.ok 4 [], Resp.ok 7 []])).1 1 []
        (p760_power_set_interactive initial_state 0 (lit "AAAAAAAAA")
          (initial_world [Resp.fail 2, Resp.ok 4 [], Resp.ok 6 [], Resp.ok 5 [], Resp.ok 6 [],
            Resp.ok 4 [], Resp.ok 7 []])).2).2.trace
      = attempted_writes (p760_power_set_interactive initial_state 0 (lit "AAAAAAAAA")
          (initial_world [Resp.fail 2, Resp.ok 4 [], Resp.ok 6 [], Resp.ok 5 [], Resp.ok 6 [],
            Resp.ok 4 [], Resp.ok 7 []])).2.trace ++
        [(SCALINGMAXFREQ_PATH, c_str initial_state.scaling_max_freq),
         (TIMER_RATE_PATH, some (bytes "20000"))] ∧
    c_str initial_state.scaling_max_freq = some (bytes "1008000") :=
  ⟨(read_failure_keeps_saved initial_state (lit "AAAAAAAAA")
      (initial_world [Resp.fail 2, Resp.ok 4 [], Resp.ok 6 [], Resp.ok 5 [], Resp.ok 6 [],
        Resp.ok 4 [], Resp.ok 7 []]) (Or.inl ⟨2, _, rfl⟩)).1,
   ((read_failure_keeps_saved initial_state (lit "AAAAAAAAA")
      (initial_world [Resp.fail 2, Resp.ok 4 [], Resp.ok 6 [], Resp.ok 5 [], Resp.ok 6 [],
        Resp.ok 4 [], Resp.ok 7 []]) (Or.inl ⟨2, _, rfl⟩)).2.1 1 [] (by decide)).1,
   (read_failure_keeps_saved initial_state (lit "AAAAAAAAA")
      (initial_world [Resp.fail 2, Resp.ok 4 [], Resp.ok 6 [], Resp.ok 5 [], Resp.ok 6 [],
        Resp.ok 4 [], Resp.ok 7 []]) (Or.inl ⟨2, _, rfl⟩)).2.2⟩

/-- C3: in every state reachable from the load-time state by calls of init,
setInteractive and powerHint, and whatever the kernel answers, `setInteractive`
attempts exactly two attribute writes: with `on == 0` the value `"600000"` to the
scaling_max_freq path, then `"500000"` to the timer_rate path; with `on != 0` the
value the saved array holds to the scaling_max_freq path, then `"20000"` to the
timer_rate path.  In system calls: the scaling_max_freq path and then the timer_rate
path are opened for writing (after the `open` for reading of the scaling_max_freq path
when `on == 0`), no other `open` is made, and each of the two that returns a
descriptor is followed by one `write` of its value on that descriptor; there is no
other `write`.  The array `screen_off_max_freq` is never modified: it holds
`"600000"` in every reachable state and after the call. -/
theorem set_interactive_write_trace (st : State) (on_ : Int) (buf : List Nat) (w : World)
    (hreach : Reachable st) :
    attempted_writes (p760_power_set_interactive st on_ buf w).2.trace =
      attempted_writes w.trace ++
        (if on_ = 0 then
          [(SCALINGMAXFREQ_PATH, some (bytes "600000")),
           (TIMER_RATE_PATH, some (bytes "500000"))]
         else
          [(SCALINGMAXFREQ_PATH, c_str st.scaling_max_freq),
           (TIMER_RATE_PATH, some (bytes "20000"))]) ∧
    (∃ l : List (Int × Option (List Nat) × Int),
      written (p760_power_set_interactive st on_ buf w).2.trace = written w.trace ++ l ∧
      (l.map fun x => x.2.1).Sublist
        (if on_ = 0 then [some (bytes "600000"), some (bytes "500000")]
         else [c_str st.scaling_max_freq, some (bytes "20000")])) ∧
    st.screen_off_max_freq = char_array MAX_BUF_SZ "600000" ∧
    (p760_power_set_interactive st on_ buf w).1.screen_off_max_freq
      = char_array MAX_BUF_SZ "600000" ∧
    (∃ r0 r1 r2 n1 n2 : Int,
      opened (p760_power_set_interactive st on_ buf w).2.trace
        = opened w.trace
            ++ (if on_ = 0 then [(SCALINGMAXFREQ_PATH, OpenFlag.O_RDONLY, r0)] else [])
            ++ [(SCALINGMAXFREQ_PATH, OpenFlag.O_WRONLY, r1),
                (TIMER_RATE_PATH, OpenFlag.O_WRONLY, r2)] ∧
      written (p760_power_set_interactive st on_ buf w).2.trace
        = written w.trace
            ++ (if 0 ≤ r1 then
                  [(r1, (if on_ = 0 then some (bytes "600000")
                         else c_str st.scaling_max_freq), n1)]
                else [])
            ++ (if 0 ≤ r2 then
                  [(r2, (if on_ = 0 then some (bytes "500000") else some (bytes "20000")), n2)]
                else [])) := by
  have hso := reachable_screen_off st hreach
  have hc : c_str st.screen_off_max_freq = some (bytes "600000") := by
    rw [hso]; decide
  refine ⟨?_, ?_, hso, ?_, ?_⟩
  · rw [set_interactive_attempted, hc]
  · have h := set_interactive_written st on_ buf w
    rw [hc] at h
    exact h
  · rw [(set_interactive_fields st on_ buf w).2.2, hso]
  · have h := set_interactive_io st on_ buf w
    rw [hc] at h
    exact h

/-- C3, witness: the state reached by a screen-off transition that saved `"902000"`,
followed by a screen-on transition.  When its first `open` fails the two writes are
attempted all the same; when both opens succeed (descriptors 4 and 5) the two `write`
calls carry `"902000"` and `"20000"`. -/
theorem set_interactive_write_trace_witness :
    attempted_writes (p760_power_set_interactive
        (run (initial_state, initial_world [Resp.ok 3 [], Resp.ok 0 (lit "902000")])
          [Call.setInteractive 0 (lit "AAAAAAAAA")]).1 1 [] (initial_world [Resp.fail 13])).2.trace
      = attempted_writes (initial_world [Resp.fail 13]).trace ++
        (if (1 : Int) = 0 then
          [(SCALINGMAXFREQ_PATH, some (bytes "600000")),
           (TIMER_RATE_PATH, some (bytes "500000"))]
         else
          [(SCALINGMAXFREQ_PATH, c_str
            (run (initial_state, initial_world [Resp.ok 3 [], Resp.ok 0 (lit "902000")])
              [Call.setInteractive 0 (lit "AAAAAAAAA")]).1.scaling_max_freq),
           (TIMER_RATE_PATH, some (bytes "20000"))]) ∧
    (∃ r0 r1 r2 n1 n2 : Int,
      opened (p760_power_set_interactive
          (run (initial_state, initial_world [Resp.ok 3 [], Resp.ok 0 (lit "902000")])
            [Call.setInteractive 0 (lit "AAAAAAAAA")]).1 1 []
          (initial_world [Resp.ok 4 [], Resp.ok 6 [], Resp.ok 5 [], Resp.ok 5 []])).2.trace
        = opened (initial_world [Resp.ok 4 [], Resp.ok 6 [], Resp.ok 5 [], Resp.ok 5 []]).trace
            ++ (if (1 : Int) = 0 then [(SCALINGMAXFREQ_PATH, OpenFlag.O_RDONLY, r0)] else [])
            ++ [(SCALINGMAXFREQ_PATH, OpenFlag.O_WRONLY, r1),
                (TIMER_RATE_PATH, OpenFlag.O_WRONLY, r2)] ∧
      written (p760_power_set_interactive
          (run (initial_state, initial_world [Resp.ok 3 [], Resp.ok 0 (lit "902000")])
            [Call.setInteractive 0 (lit "AAAAAAAAA")]).1 1 []
          (initial_world [Resp.ok 4 [], Resp.ok 6 [], Resp.ok 5 [], Resp.ok 5 []])).2.trace
        = written (initial_world [Resp.ok 4 [], Resp.ok 6 [], Resp.ok 5 [], Resp.ok 5 []]).trace
            ++ (if 0 ≤ r1 then
                  [(r1, (if (1 : Int) = 0 then some (bytes "600000")
                         else c_str
                          (run (initial_state,
                              initial_world [Resp.ok 3 [], Resp.ok 0 (lit "902000")])
                            [Call.setInteractive 0 (lit "AAAAAAAAA")]).1.scaling_max_freq), n1)]
                else [])
            ++ (if 0 ≤ r2 then
                  [(r2, (if (1 : Int) = 0 then some (bytes "500000")
                         else some (bytes "20000")), n2)]
                else [])) ∧
    written (p760_power_set_interactive
        (run (initial_state, initial_world [Resp.ok 3 [], Resp.ok 0 (lit "902000")])
          [Call.setInteractive 0 (lit "AAAAAAAAA")]).1 1 []
        (initial_world [Resp.ok 4 [], Resp.ok 6 [], Resp.ok 5 [], Resp.ok 5 []])).2.trace
      = [(4, some (bytes "902000"), 6), (5, some (bytes "20000"), 5)] ∧
    opened (p760_power_set_interactive
        (run (initial_state, initial_world [Resp.ok 3 [], Resp.ok 0 (lit "902000")])
          [Call.setInteractive 0 (lit "AAAAAAAAA")]).1 1 []
        (initial_world [Resp.ok 4 [], Resp.ok 6 [], Resp.ok 5 [], Resp.ok 5 []])).2.trace
      = [(SCALINGMAXFREQ_PATH, OpenFlag.O_WRONLY, 4), (TIMER_RATE_PATH, OpenFlag.O_WRONLY, 5)] :=
  ⟨(set_interactive_write_trace
      (run (initial_state, initial_world [Resp.ok 3 [], Resp.ok 0 (lit "902000")])
        [Call.setInteractive 0 (lit "AAAAAAAAA")]).1 1 [] (initial_world [Resp.fail 13])
      ⟨[Resp.ok 3 [], Resp.ok 0 (lit "902000")], [Call.setInteractive 0 (lit "AAAAAAAAA")],
        rfl⟩).1,
   (set_interactive_write_trace
      (run (initial_state, initial_world [Resp.ok 3 [], Resp.ok 0 (lit "902000")])
        [Call.setInteractive 0 (lit "AAAAAAAAA")]).1 1 []
      (initial_world [Resp.ok 4 [], Resp.ok 6 [], Resp.ok 5 [], Resp.ok 5 []])
      ⟨[Resp.ok 3 [], Resp.ok 0 (lit "902000")], [Call.setInteractive 0 (lit "AAAAAAAAA")],
        rfl⟩).2.2.2.2,
   by decide, by decide⟩

end P760
